import Mathlib

/-!
Shallow embedding of the chess engine (src/chess_engine.py, src/evaluation.py).

The rules engine (the python-chess library) is an external collaborator of the
repository; it is represented abstractly by the `Board` record of collaborator
query results and a `Game.push` transition function, exactly the operations the
source code invokes on it.  Python floats are modelled as exact rationals, with
the IEEE infinities of `float` represented by the `Score` type.  Mutable
objects (the board pushed and popped in place, the evaluator's reassigned king
piece-square table, the engine's position-history dictionary and wall clock)
are modelled by explicit state passing through `SearchSt`; the wall clock is an
oracle `clock : Nat -> Rat` read once per `time.time()` call.  Python
exceptions (`TimeoutError`, and the `AttributeError` raised by an attribute
lookup that fails) are modelled by the `Exc` error component of each result,
which also carries the state at the moment the exception propagates.
-/

/-- Squares are 0..63 in python-chess encoding: `square = rank * 8 + file`. -/
def square_file (sq : Nat) : Nat := sq % 8

def square_rank (sq : Nat) : Nat := sq / 8

def squareAt (f r : Nat) : Nat := r * 8 + f

/-- chess.square_mirror (square XOR 0x38): flip the rank, keep the file;
written arithmetically, which agrees with the XOR on the 0..63 board. -/
def square_mirror (sq : Nat) : Nat := squareAt (square_file sq) (7 - square_rank sq)

/-- Python range(a, b) over naturals (empty when b <= a). -/
def pyRange (a b : Nat) : List Nat := (List.range (b - a)).map (a + ·)

def concatMap (f : α → List β) : List α → List β
  | [] => []
  | x :: xs => f x ++ concatMap f xs

inductive PieceType where
  | pawn
  | knight
  | bishop
  | rook
  | queen
  | king
deriving DecidableEq, BEq

/-- chess.Piece: equality compares piece type and color (True = white). -/
structure Piece where
  piece_type : PieceType
  color : Bool
deriving DecidableEq, BEq

/-- chess.Move: a source square, a destination square, optional promotion. -/
structure Move where
  from_square : Nat
  to_square : Nat
  promotion : Option PieceType
deriving DecidableEq, BEq

/-- A python float value as produced by the evaluator: either an IEEE
infinity sentinel or an exact (rational) finite value. -/
inductive Score where
  | negInf
  | val (q : ℚ)
  | posInf
deriving DecidableEq

namespace Score

/-- Strict order of float values, infinities included (no NaN arises). -/
def ltB : Score → Score → Bool
  | negInf, negInf => false
  | negInf, _ => true
  | val _, negInf => false
  | val a, val b => decide (a < b)
  | val _, posInf => true
  | posInf, _ => false

def gtB (a b : Score) : Bool := ltB b a

def leB (a b : Score) : Bool := !ltB b a

/-- python max(a, b): returns b exactly when a < b. -/
def maxS (a b : Score) : Score := if ltB a b then b else a

/-- python min(a, b): returns b exactly when b < a. -/
def minS (a b : Score) : Score := if ltB b a then b else a

def neg : Score → Score
  | negInf => posInf
  | val q => val (-q)
  | posInf => negInf

/-- Multiplication by the literal 0.8 (inf * 0.8 = inf for floats). -/
def mul08 : Score → Score
  | negInf => negInf
  | val q => val (q * 0.8)
  | posInf => posInf

/-- The test abs(x) > 500 (abs of an infinity exceeds any finite bound). -/
def absGT500 : Score → Bool
  | negInf => true
  | val q => decide (|q| > 500)
  | posInf => true

end Score

/-- The collaborator queries the engine makes on a python-chess `Board`
object, recorded as data.  `legal_moves_for` takes the side to move as an
argument because the mobility evaluation temporarily rewrites `board.turn`
and re-reads `board.legal_moves`; every other query used by the code is
independent of the turn field. -/
structure Board where
  turn : Bool
  piece_at : Nat → Option Piece
  legal_moves_for : Bool → List Move
  attacks : Nat → List Nat
  attackers : Bool → Nat → List Nat
  is_attacked_by : Bool → Nat → Bool
  king : Bool → Option Nat
  has_castling_rights : Bool → Bool
  is_checkmate : Bool
  is_stalemate : Bool
  is_insufficient_material : Bool
  is_check : Bool
  is_game_over : Bool
  is_capture : Move → Bool
  fingerprint : Nat

/-- board.legal_moves of the current position. -/
def Board.legal_moves (b : Board) : List Move := b.legal_moves_for b.turn

/-- board.pieces(piece_type, color): the set of squares holding such a piece. -/
def Board.pieces (b : Board) (t : PieceType) (c : Bool) : List Nat :=
  (List.range 64).filter (fun sq => b.piece_at sq == some ⟨t, c⟩)

/-- The rules-engine transition: board.push(move).  (board.pop() is modelled
by the explicit stack kept in the search state.) -/
structure Game where
  push : Board → Move → Board

namespace ChessEvaluator

/-- The piece-square table assigned to `PIECE_POSITION_SCORES[chess.KING]`,
the only entry of that dictionary the evaluator mutates. -/
structure EvalSt where
  king_table : List ℚ

def PIECE_VALUES : PieceType → ℚ
  | .pawn => 100
  | .knight => 320
  | .bishop => 330
  | .rook => 500
  | .queen => 900
  | .king => 20000

def PAWN_TABLE : List ℚ :=
  [0,  0,  0,  0,  0,  0,  0,  0,
   50, 50, 50, 50, 50, 50, 50, 50,
   10, 10, 20, 30, 30, 20, 10, 10,
   5,  5, 10, 25, 25, 10,  5,  5,
   0,  0,  0, 20, 20,  0,  0,  0,
   5, -5,-10,  0,  0,-10, -5,  5,
   5, 10, 10,-20,-20, 10, 10,  5,
   0,  0,  0,  0,  0,  0,  0,  0]

def KNIGHT_TABLE : List ℚ :=
  [-50,-40,-30,-30,-30,-30,-40,-50,
   -40,-20,  0,  0,  0,  0,-20,-40,
   -30,  0, 10, 15, 15, 10,  0,-30,
   -30,  5, 15, 20, 20, 15,  5,-30,
   -30,  0, 15, 20, 20, 15,  0,-30,
   -30,  5, 10, 15, 15, 10,  5,-30,
   -40,-20,  0,  5,  5,  0,-20,-40,
   -50,-40,-30,-30,-30,-30,-40,-50]

def BISHOP_TABLE : List ℚ :=
  [-20,-10,-10,-10,-10,-10,-10,-20,
   -10,  0,  0,  0,  0,  0,  0,-10,
   -10,  0,  5, 10, 10,  5,  0,-10,
   -10,  5,  5, 10, 10,  5,  5,-10,
   -10,  0, 10, 10, 10, 10,  0,-10,
   -10, 10, 10, 10, 10, 10, 10,-10,
   -10,  5,  0,  0,  0,  0,  5,-10,
   -20,-10,-10,-10,-10,-10,-10,-20]

def ROOK_TABLE : List ℚ :=
  [0,  0,  0,  5,  5,  0,  0,  0,
   -5,  0,  0,  0,  0,  0,  0, -5,
   -5,  0,  0,  0,  0,  0,  0, -5,
   -5,  0,  0,  0,  0,  0,  0, -5,
   -5,  0,  0,  0,  0,  0,  0, -5,
   -5,  0,  0,  0,  0,  0,  0, -5,
   5, 10, 10, 10, 10, 10, 10,  5,
   0,  0,  0,  0,  0,  0,  0,  0]

def QUEEN_TABLE : List ℚ :=
  [-20,-10,-10, -5, -5,-10,-10,-20,
   -10,  0,  0,  0,  0,  0,  0,-10,
   -10,  0,  5,  5,  5,  5,  0,-10,
   -5,  0,  5,  5,  5,  5,  0, -5,
   0,  0,  5,  5,  5,  5,  0, -5,
   -10,  5,  5,  5,  5,  5,  0,-10,
   -10,  0,  5,  0,  0,  0,  0,-10,
   -20,-10,-10, -5, -5,-10,-10,-20]

def KING_MIDDLEGAME_TABLE : List ℚ :=
  [-30,-40,-40,-50,-50,-40,-40,-30,
   -30,-40,-40,-50,-50,-40,-40,-30,
   -30,-40,-40,-50,-50,-40,-40,-30,
   -30,-40,-40,-50,-50,-40,-40,-30,
   -20,-30,-30,-40,-40,-30,-30,-20,
   -10,-20,-20,-20,-20,-20,-20,-10,
   20, 20,  0,  0,  0,  0, 20, 20,
   20, 30, 10,  0,  0, 10, 30, 20]

def KING_ENDGAME_TABLE : List ℚ :=
  [-50,-40,-30,-20,-20,-30,-40,-50,
   -30,-20,-10,  0,  0,-10,-20,-30,
   -30,-10, 20, 30, 30, 20,-10,-30,
   -30,-10, 30, 40, 40, 30,-10,-30,
   -30,-10, 30, 40, 40, 30,-10,-30,
   -30,-10, 20, 30, 30, 20,-10,-30,
   -30,-30,  0,  0,  0,  0,-30,-30,
   -50,-30,-30,-30,-30,-30,-30,-50]

def PIECE_POSITION_SCORES (es : EvalSt) : PieceType → List ℚ
  | .pawn => PAWN_TABLE
  | .knight => KNIGHT_TABLE
  | .bishop => BISHOP_TABLE
  | .rook => ROOK_TABLE
  | .queen => QUEEN_TABLE
  | .king => es.king_table

def KING_SAFETY_WEIGHT : ℚ := 60
def MOBILITY_WEIGHT : ℚ := 0.2
def PAWN_STRUCTURE_WEIGHT : ℚ := 30
def CENTER_CONTROL_WEIGHT : ℚ := 40
def PIECE_ACTIVITY_WEIGHT : ℚ := 25
def KING_ATTACK_WEIGHT : ℚ := 50
def PIECE_COORDINATION_WEIGHT : ℚ := 15

def CENTER_SQUARES : List Nat := [28, 36, 27, 35]

def EXTENDED_CENTER : List Nat :=
  [18, 19, 20, 21, 26, 27, 28, 29, 34, 35, 36, 37, 42, 43, 44, 45]

def nonKingTypes : List PieceType := [.pawn, .knight, .bishop, .rook, .queen]

def _is_endgame (b : Board) : Bool :=
  let white_material : ℚ :=
    nonKingTypes.foldl (fun acc t => acc + ((b.pieces t true).length : ℚ) * PIECE_VALUES t) 0
  let black_material : ℚ :=
    nonKingTypes.foldl (fun acc t => acc + ((b.pieces t false).length : ℚ) * PIECE_VALUES t) 0
  decide (white_material < 1300) || decide (black_material < 1300)

def _get_position_value (es : EvalSt) (piece : Piece) (sq : Nat) : ℚ :=
  let table := PIECE_POSITION_SCORES es piece.piece_type
  let position := if piece.color then sq else square_mirror sq
  table.getD position 0

def _evaluate_material_and_position (es : EvalSt) (b : Board) : ℚ :=
  let acc := (List.range 64).foldl (fun (acc : ℚ × Nat × Nat) sq =>
    match b.piece_at sq with
    | none => acc
    | some piece =>
      let piece_value := PIECE_VALUES piece.piece_type
      let position_value := _get_position_value es piece sq
      let piece_score := piece_value + position_value
      let piece_score :=
        if piece.piece_type ≠ PieceType.pawn ∧ piece.piece_type ≠ PieceType.king then
          piece_score + ((b.attacks sq).length : ℚ) * 5
        else piece_score
      let wb := if piece.piece_type = PieceType.bishop ∧ piece.color then acc.2.1 + 1 else acc.2.1
      let bb := if piece.piece_type = PieceType.bishop ∧ ¬piece.color then acc.2.2 + 1 else acc.2.2
      (acc.1 + (if piece.color then piece_score else -piece_score), wb, bb)) (0, 0, 0)
  let score := acc.1
  let score := if acc.2.1 ≥ 2 then score + 50 else score
  if acc.2.2 ≥ 2 then score - 50 else score

def _evaluate_pawn_shield (b : Board) (king_square : Nat) (color : Bool) : ℚ :=
  let king_file := square_file king_square
  let king_rank := square_rank king_square
  let shield_ranks : List Int :=
    if color then [(king_rank : Int) + 1, (king_rank : Int) + 2]
    else [(king_rank : Int) - 1, (king_rank : Int) - 2]
  (pyRange (king_file - 1) (min 8 (king_file + 2))).foldl (fun acc file =>
    shield_ranks.foldl (fun acc (rank : Int) =>
      if 0 ≤ rank ∧ rank < 8 then
        match b.piece_at (squareAt file rank.toNat) with
        | some piece =>
          if piece.piece_type = PieceType.pawn ∧ piece.color = color then
            acc + 10 + (if file = king_file then 5 else 0)
          else acc
        | none => acc
      else acc) acc) 0

def _evaluate_king_attackers (b : Board) (king_square : Nat) (king_color : Bool) : ℚ :=
  let king_file := square_file king_square
  let king_rank := square_rank king_square
  let king_zone :=
    concatMap (fun f => (pyRange (king_rank - 1) (min 8 (king_rank + 2))).map (fun r => squareAt f r))
      (pyRange (king_file - 1) (min 8 (king_file + 2)))
  let attacking_color := !king_color
  (List.range 64).foldl (fun acc sq =>
    match b.piece_at sq with
    | some piece =>
      if piece.color = attacking_color then
        if king_zone.any (fun zs => b.is_attacked_by attacking_color zs) then
          acc + PIECE_VALUES piece.piece_type * 0.1
        else acc
      else acc
    | none => acc) 0

def _evaluate_king_open_files (b : Board) (king_square : Nat) (color : Bool) : ℚ :=
  let king_file := square_file king_square
  (pyRange (king_file - 1) (min 8 (king_file + 2))).foldl (fun acc file =>
    let has_friendly_pawn := (List.range 8).any (fun rank =>
      match b.piece_at (squareAt file rank) with
      | some p => p.piece_type == PieceType.pawn && p.color == color
      | none => false)
    let has_enemy_pawn := (List.range 8).any (fun rank =>
      match b.piece_at (squareAt file rank) with
      | some p => p.piece_type == PieceType.pawn && p.color == !color
      | none => false)
    if !has_friendly_pawn then
      acc + 20 + (if !has_enemy_pawn then 10 else 0)
    else acc) 0

def _evaluate_king_safety (b : Board) : ℚ :=
  [true, false].foldl (fun score color =>
    match b.king color with
    | none => score
    | some king_square =>
      let shield_value := _evaluate_pawn_shield b king_square color
      let attacker_value := _evaluate_king_attackers b king_square color
      let open_files_penalty := _evaluate_king_open_files b king_square color
      let king_safety := shield_value - attacker_value - open_files_penalty
      score + (if color then king_safety else -king_safety)) 0

def _evaluate_mobility (b : Board) : ℚ × Board :=
  let original_turn := b.turn
  let countFor : Board → ℚ := fun bb =>
    bb.legal_moves.foldl (fun acc move =>
      match bb.piece_at move.from_square with
      | none => acc
      | some piece =>
        if piece.piece_type = PieceType.pawn then acc + 1
        else if piece.piece_type = PieceType.knight ∨ piece.piece_type = PieceType.bishop then acc + 2
        else if piece.piece_type = PieceType.rook then acc + 3
        else if piece.piece_type = PieceType.queen then acc + 4
        else acc) 0
  let bW : Board := { b with turn := true }
  let mW := countFor bW
  let bB : Board := { bW with turn := false }
  let mB := countFor bB
  let score := mW - mB
  let bR : Board := { bB with turn := original_turn }
  (score, bR)

def _evaluate_center_control (b : Board) : ℚ :=
  let s1 := CENTER_SQUARES.foldl (fun score sq =>
    let white_control : ℚ := ((b.attackers true sq).length : ℚ)
    let black_control : ℚ := ((b.attackers false sq).length : ℚ)
    let score := score + (white_control - black_control) * 10
    match b.piece_at sq with
    | some piece =>
      let value : ℚ := if piece.piece_type = PieceType.pawn then 15 else 10
      score + (if piece.color then value else -value)
    | none => score) 0
  EXTENDED_CENTER.foldl (fun score sq =>
    let white_control : ℚ := ((b.attackers true sq).length : ℚ)
    let black_control : ℚ := ((b.attackers false sq).length : ℚ)
    let score := score + (white_control - black_control) * 5
    match b.piece_at sq with
    | some piece =>
      let value : ℚ := if piece.piece_type = PieceType.pawn then 7 else 5
      score + (if piece.color then value else -value)
    | none => score) s1

def _evaluate_piece_activity (b : Board) : ℚ :=
  (List.range 64).foldl (fun score sq =>
    match b.piece_at sq with
    | none => score
    | some piece =>
      let score :=
        if ¬(_is_endgame b = true) then
          if piece.piece_type = PieceType.knight ∨ piece.piece_type = PieceType.bishop then
            if piece.color then
              (if square_rank sq > 1 then score + 10 else score)
            else
              (if square_rank sq < 6 then score - 10 else score)
          else score
        else score
      let piece_activity : ℚ := ((b.attacks sq).length : ℚ) * 2
      let piece_activity := CENTER_SQUARES.foldl (fun pa cs =>
        if b.is_attacked_by piece.color cs then pa + 5 else pa) piece_activity
      score + (if piece.color then piece_activity else -piece_activity)) 0

def _get_attack_weight : PieceType → ℚ
  | .pawn => 1
  | .knight => 3
  | .bishop => 3
  | .rook => 5
  | .queen => 9
  | .king => 0

def _is_attacking_king_zone (b : Board) (sq king_square : Nat) : Bool :=
  let king_file := square_file king_square
  let king_rank := square_rank king_square
  (pyRange (king_file - 1) (min 8 (king_file + 2))).any (fun f =>
    (pyRange (king_rank - 1) (min 8 (king_rank + 2))).any (fun r =>
      match b.piece_at sq with
      | some p => b.is_attacked_by p.color (squareAt f r)
      | none => false))

def _evaluate_king_attack (b : Board) : ℚ :=
  [true, false].foldl (fun score color =>
    match b.king (!color) with
    | none => score
    | some enemy_king_square =>
      let acc := (List.range 64).foldl (fun (acc : ℚ × Nat) sq =>
        match b.piece_at sq with
        | some piece =>
          if piece.color = color ∧ _is_attacking_king_zone b sq enemy_king_square = true then
            (acc.1 + _get_attack_weight piece.piece_type, acc.2 + 1)
          else acc
        | none => acc) (0, 0)
      let attack_value := acc.1
      let attacker_count := acc.2
      let attack_value :=
        if attacker_count > 1 then attack_value * ((attacker_count : ℚ) * 1.5) else attack_value
      score + (if color then attack_value else -attack_value)) 0

def _evaluate_bishop_pair (b : Board) : ℚ :=
  let white_bishops := (b.pieces PieceType.bishop true).length
  let black_bishops := (b.pieces PieceType.bishop false).length
  let score : ℚ := if white_bishops ≥ 2 then 50 else 0
  if black_bishops ≥ 2 then score - 50 else score

def _is_open_file (b : Board) (file : Nat) : Bool :=
  !(List.range 8).any (fun rank =>
    match b.piece_at (squareAt file rank) with
    | some p => p.piece_type == PieceType.pawn
    | none => false)

def _evaluate_rook_coordination (b : Board) : ℚ :=
  [true, false].foldl (fun score color =>
    let rook_squares := b.pieces PieceType.rook color
    if rook_squares.length ≥ 2 then
      let score :=
        if rook_squares.any (fun r1 => rook_squares.any (fun r2 =>
            (r1 != r2) && (square_rank r1 == square_rank r2))) then
          score + (if color then (20 : ℚ) else -20)
        else score
      rook_squares.foldl (fun sc rook_square =>
        if _is_open_file b (square_file rook_square) then
          sc + (if color then (15 : ℚ) else -15)
        else sc) score
    else score) 0

def _evaluate_piece_protection (b : Board) : ℚ :=
  (List.range 64).foldl (fun score sq =>
    match b.piece_at sq with
    | none => score
    | some piece =>
      let defenders := (b.attackers piece.color sq).length
      if defenders > 0 then
        let protection_value : ℚ := (defenders : ℚ) * 5
        score + (if piece.color then protection_value else -protection_value)
      else score) 0

def _evaluate_piece_coordination (b : Board) : ℚ :=
  _evaluate_bishop_pair b + _evaluate_rook_coordination b + _evaluate_piece_protection b

def _evaluate_king_centralization (b : Board) : ℚ :=
  [true, false].foldl (fun score color =>
    match b.king color with
    | none => score
    | some king_square =>
      let file := square_file king_square
      let rank := square_rank king_square
      let file_distance := min ((file : Int) - 3).natAbs ((file : Int) - 4).natAbs
      let rank_distance := min ((rank : Int) - 3).natAbs ((rank : Int) - 4).natAbs
      let centralization : ℚ := 7 - (((file_distance + rank_distance : Nat)) : ℚ)
      score + (if color then centralization else -centralization)) 0

def _is_passed_pawn (b : Board) (sq : Nat) (color : Bool) : Bool :=
  let file := square_file sq
  let rank := square_rank sq
  let ranks_ahead : List Nat := if color then pyRange (rank + 1) 8 else (List.range rank).reverse
  !(ranks_ahead.any (fun r =>
    (pyRange (file - 1) (min 8 (file + 2))).any (fun f =>
      match b.piece_at (squareAt f r) with
      | some p => p.piece_type == PieceType.pawn && p.color == !color
      | none => false)))

def _evaluate_passed_pawns (b : Board) : ℚ :=
  (List.range 64).foldl (fun score sq =>
    match b.piece_at sq with
    | some piece =>
      if piece.piece_type = PieceType.pawn then
        if _is_passed_pawn b sq piece.color then
          let rank := square_rank sq
          let bonus : ℚ := 50 + (if piece.color then (rank : ℚ) else 7 - (rank : ℚ)) * 10
          score + (if piece.color then bonus else -bonus)
        else score
      else score
    | none => score) 0

def _evaluate_pawn_chains (b : Board) : ℚ :=
  (List.range 64).foldl (fun score sq =>
    match b.piece_at sq with
    | some piece =>
      if piece.piece_type = PieceType.pawn then
        let file := square_file sq
        let rank := square_rank sq
        [(file : Int) - 1, (file : Int) + 1].foldl (fun sc (f : Int) =>
          if 0 ≤ f ∧ f < 8 then
            let protect_rank : Int := if piece.color then (rank : Int) - 1 else (rank : Int) + 1
            if 0 ≤ protect_rank ∧ protect_rank < 8 then
              match b.piece_at (squareAt f.toNat protect_rank.toNat) with
              | some protector =>
                if protector.piece_type = PieceType.pawn ∧ protector.color = piece.color then
                  sc + (if piece.color then (10 : ℚ) else -10)
                else sc
              | none => sc
            else sc
          else sc) score
      else score
    | none => score) 0

def _evaluate_isolated_pawns (b : Board) : ℚ :=
  (List.range 64).foldl (fun score sq =>
    match b.piece_at sq with
    | some piece =>
      if piece.piece_type = PieceType.pawn then
        let file := square_file sq
        let isolated := !([(file : Int) - 1, (file : Int) + 1].any (fun (f : Int) =>
          if 0 ≤ f ∧ f < 8 then
            (List.range 8).any (fun r =>
              match b.piece_at (squareAt f.toNat r) with
              | some cp => cp.piece_type == PieceType.pawn && cp.color == piece.color
              | none => false)
          else false))
        if isolated then
          score - (if piece.color then (20 : ℚ) else 20)
        else score
      else score
    | none => score) 0

def _evaluate_doubled_pawns (b : Board) : ℚ :=
  (List.range 8).foldl (fun score file =>
    let counts := (List.range 8).foldl (fun (acc : Nat × Nat) rank =>
      match b.piece_at (squareAt file rank) with
      | some p =>
        if p.piece_type = PieceType.pawn then
          if p.color then (acc.1 + 1, acc.2) else (acc.1, acc.2 + 1)
        else acc
      | none => acc) (0, 0)
    let white_pawns := counts.1
    let black_pawns := counts.2
    let score := if white_pawns > 1 then score - ((white_pawns : ℚ) - 1) * 15 else score
    if black_pawns > 1 then score + ((black_pawns : ℚ) - 1) * 15 else score) 0

def _evaluate_pawn_structure (b : Board) : ℚ :=
  _evaluate_pawn_chains b + _evaluate_isolated_pawns b + _evaluate_doubled_pawns b

/-- The main evaluation, returning the score together with the evaluator
state (the king piece-square table it reassigned) and the board object it was
handed (whose turn field the mobility step rewrote and restored). -/
def evaluate (es : EvalSt) (b : Board) : Score × EvalSt × Board :=
  if b.is_checkmate then
    ((if b.turn then Score.negInf else Score.posInf), es, b)
  else if b.is_stalemate || b.is_insufficient_material then
    (Score.val 0, es, b)
  else
    let is_endgame := _is_endgame b
    let es : EvalSt :=
      if is_endgame then { king_table := KING_ENDGAME_TABLE }
      else { king_table := KING_MIDDLEGAME_TABLE }
    let score : ℚ := 0
    let score := score + _evaluate_material_and_position es b
    let sm : ℚ × Board :=
      if is_endgame then
        let score := score + _evaluate_king_centralization b * 50
        let score := score + _evaluate_passed_pawns b * 40
        let mr := _evaluate_mobility b
        (score + mr.1 * 0.3, mr.2)
      else
        let score := score + _evaluate_king_safety b * KING_SAFETY_WEIGHT
        let mr := _evaluate_mobility b
        let score := score + mr.1 * MOBILITY_WEIGHT
        let bb := mr.2
        let score := score + _evaluate_pawn_structure bb * PAWN_STRUCTURE_WEIGHT
        let score := score + _evaluate_center_control bb * CENTER_CONTROL_WEIGHT
        let score := score + _evaluate_piece_activity bb * PIECE_ACTIVITY_WEIGHT
        let score := score + _evaluate_king_attack bb * KING_ATTACK_WEIGHT
        (score + _evaluate_piece_coordination bb * PIECE_COORDINATION_WEIGHT, bb)
    let score := sm.1
    let bb := sm.2
    let score := if bb.has_castling_rights true then score + 30 else score
    let score := if bb.has_castling_rights false then score - 30 else score
    ((if bb.turn then Score.val score else Score.val (-score)), es, bb)

/-- The evaluator state at construction: the king entry of
PIECE_POSITION_SCORES starts as the middlegame table. -/
def init : EvalSt := { king_table := KING_MIDDLEGAME_TABLE }

end ChessEvaluator

/-- Python exceptions that cross the engine's frames: the TimeoutError raised
by the deadline check, and the AttributeError raised when order_moves calls
the non-existent evaluator method at its defense-evaluation step. -/
inductive Exc where
  | timeout
  | attr
deriving DecidableEq

structure EngineCfg where
  depth : Int
  time_limit : ℚ

/-- The mutable state threaded through a search: the board object (current
value plus the stack of pushed frames so that board.pop() restores), the
position_history dictionary, the evaluator state, and the wall-clock cursor
(index of the next time.time() reading) with the recorded start time. -/
structure SearchSt where
  stack : List (Board × Move)
  cur : Board
  position_history : List (Nat × Int)
  es : ChessEvaluator.EvalSt
  clockIdx : Nat
  start_time : ℚ

namespace ChessEngine

/-- Python dict membership: `k in d`. -/
def hMem (h : List (Nat × Int)) (k : Nat) : Bool := h.any (fun p => p.1 == k)

/-- Python `d.get(k, 0)`. -/
def hGet (h : List (Nat × Int)) (k : Nat) : Int :=
  match h.find? (fun p => p.1 == k) with
  | some p => p.2
  | none => 0

/-- Python `d[k] = v` on an insertion-ordered dict. -/
def hSet (h : List (Nat × Int)) (k : Nat) (v : Int) : List (Nat × Int) :=
  if hMem h k then h.map (fun p => if p.1 == k then (k, v) else p) else h ++ [(k, v)]

/-- board.push(move). -/
def pushB (g : Game) (m : Move) (s : SearchSt) : SearchSt :=
  { s with stack := (s.cur, m) :: s.stack, cur := g.push s.cur m }

/-- board.pop(): restore the most recently pushed frame. -/
def popB (s : SearchSt) : SearchSt :=
  match s.stack with
  | [] => s
  | (b, _) :: rest => { s with stack := rest, cur := b }

/-- is_time_up: reads time.time() once and compares against the limit. -/
def is_time_up (cfg : EngineCfg) (clock : Nat → ℚ) (s : SearchSt) : Bool × SearchSt :=
  (decide (clock s.clockIdx - s.start_time > cfg.time_limit),
   { s with clockIdx := s.clockIdx + 1 })

/-- The inner loop of order_moves lines 33-38: simulate every opposing reply
to a check and subtract 100 when the post-push capture test matches the
checking piece. -/
def checkReplyLoop (g : Game) (moving_piece : Option Piece) :
    List Move → ℚ × SearchSt → ℚ × SearchSt
  | [], acc => acc
  | om :: rest, acc =>
    let st2 := pushB g om acc.2
    let b3 := st2.cur
    let sc :=
      if b3.is_capture om && (b3.piece_at om.to_square == moving_piece) then acc.1 - 100
      else acc.1
    checkReplyLoop g moving_piece rest (sc, popB st2)

/-- order_moves lines 24-38, evaluated on the board with the candidate move
already pushed: +10000 for immediate checkmate, else the check bonus of +30,
+50 more when the post-move evaluation exceeds 500, and the reply loop. -/
def checkBlock (g : Game) (moving_piece : Option Piece) (score : ℚ) (s1 : SearchSt) :
    ℚ × SearchSt :=
  let b1 := s1.cur
  if b1.is_checkmate then (score + 10000, s1)
  else if b1.is_check then
    let score := score + 30
    let er := ChessEvaluator.evaluate s1.es b1
    let s1 : SearchSt := { s1 with es := er.2.1, cur := er.2.2 }
    let score := if Score.gtB er.1 (Score.val 500) then score + 50 else score
    let opponent_moves := s1.cur.legal_moves
    checkReplyLoop g moving_piece opponent_moves (score, s1)
  else (score, s1)

/-- The body of the order_moves scoring loop (lines 17-67) for one candidate
move.  The final step pushes the move and looks up the evaluator attribute
named at line 65, which does not exist, so the body always ends in an
AttributeError carrying the board with that push still applied. -/
def scoreMove (g : Game) (s : SearchSt) (move : Move) : (Except Exc ℚ) × SearchSt :=
  let score : ℚ := 0
  let moving_piece := s.cur.piece_at move.from_square
  let captured_piece := s.cur.piece_at move.to_square
  let s1 := pushB g move s
  let cb := checkBlock g moving_piece score s1
  let score := cb.1
  let s2 := popB cb.2
  let mvv : Except Exc ℚ :=
    match captured_piece with
    | some cp =>
      match moving_piece with
      | none => .error .attr
      | some mp =>
        .ok (score + 10 * ChessEvaluator.PIECE_VALUES cp.piece_type
                 - ChessEvaluator.PIECE_VALUES mp.piece_type)
    | none => .ok score
  match mvv with
  | .error e => (.error e, s2)
  | .ok score =>
    let score := if move.promotion.isSome then score + 800 else score
    let to_rank := square_rank move.to_square
    let to_file := square_file move.to_square
    let center_distance : ℚ := |(3.5 : ℚ) - (to_file : ℚ)| + |(3.5 : ℚ) - (to_rank : ℚ)|
    let score := score - center_distance * 10
    let s3 := pushB g move s2
    let pos_hash := s3.cur.fingerprint
    let rp : ℚ × SearchSt :=
      if hMem s3.position_history pos_hash then
        let er := ChessEvaluator.evaluate s3.es s3.cur
        let s3 : SearchSt := { s3 with es := er.2.1, cur := er.2.2 }
        ((if Score.gtB er.1 (Score.val 500) then score - 400 else score), s3)
      else (score, s3)
    let s4 := popB rp.2
    let s5 := pushB g move s4
    (.error .attr, s5)

def orderLoop (g : Game) : List Move → List (Move × ℚ) → SearchSt →
    (Except Exc (List (Move × ℚ))) × SearchSt
  | [], move_scores, s => (.ok move_scores, s)
  | move :: rest, move_scores, s =>
    let r := scoreMove g s move
    match r.1 with
    | .ok sc => orderLoop g rest (move_scores ++ [(move, sc)]) r.2
    | .error e => (.error e, r.2)

/-- Stable insertion, descending by score: python list.sort(key, reverse=True)
keeps the original order of equal-scored moves. -/
def insertDesc (x : Move × ℚ) : List (Move × ℚ) → List (Move × ℚ)
  | [] => [x]
  | y :: ys => if x.2 ≥ y.2 then x :: y :: ys else y :: insertDesc x ys

def sortDesc : List (Move × ℚ) → List (Move × ℚ)
  | [] => []
  | x :: xs => insertDesc x (sortDesc xs)

def order_moves (g : Game) (s : SearchSt) (moves : List Move) :
    (Except Exc (List Move)) × SearchSt :=
  let r := orderLoop g moves [] s
  match r.1 with
  | .ok move_scores => (.ok ((sortDesc move_scores).map Prod.fst), r.2)
  | .error e => (.error e, r.2)

/-- The terminal branch of alpha_beta (lines 84-90): evaluate, then dampen by
0.8 when the fingerprint is a key of position_history and the magnitude of
the raw evaluation exceeds 500. -/
def terminalEval (s : SearchSt) : (Except Exc (Score × Option Move)) × SearchSt :=
  let er := ChessEvaluator.evaluate s.es s.cur
  let s : SearchSt := { s with es := er.2.1, cur := er.2.2 }
  let pos_hash := s.cur.fingerprint
  let eval_score :=
    if hMem s.position_history pos_hash && Score.absGT500 er.1 then Score.mul08 er.1
    else er.1
  (.ok (eval_score, none), s)

/-- The maximizing move loop of alpha_beta (lines 96-118).  On a TimeoutError
from the recursive call the handler pops the board and re-raises without
reverting the position_history increment; any other exception propagates with
no cleanup at all. -/
def abLoopMax (g : Game)
    (recur : Score → Score → SearchSt → (Except Exc (Score × Option Move)) × SearchSt) :
    List Move → Score → Option Move → Score → Score → SearchSt →
    (Except Exc (Score × Option Move)) × SearchSt
  | [], max_eval, best_move, _, _, s => (.ok (max_eval, best_move), s)
  | move :: rest, max_eval, best_move, alpha, beta, s =>
    let s1 := pushB g move s
    let pos_hash := s1.cur.fingerprint
    let s1 : SearchSt :=
      { s1 with position_history := hSet s1.position_history pos_hash (hGet s1.position_history pos_hash + 1) }
    let r := recur alpha beta s1
    match r.1 with
    | .error Exc.timeout => (.error .timeout, popB r.2)
    | .error Exc.attr => (.error .attr, r.2)
    | .ok er =>
      let ev := er.1
      let s2 : SearchSt :=
        { r.2 with position_history := hSet r.2.position_history pos_hash (hGet r.2.position_history pos_hash - 1) }
      let s2 := popB s2
      let max_eval' := if Score.gtB ev max_eval then ev else max_eval
      let best_move' := if Score.gtB ev max_eval then some move else best_move
      let alpha' := Score.maxS alpha ev
      if Score.leB beta alpha' then (.ok (max_eval', best_move'), s2)
      else abLoopMax g recur rest max_eval' best_move' alpha' beta s2

/-- The minimizing move loop of alpha_beta (lines 119-141). -/
def abLoopMin (g : Game)
    (recur : Score → Score → SearchSt → (Except Exc (Score × Option Move)) × SearchSt) :
    List Move → Score → Option Move → Score → Score → SearchSt →
    (Except Exc (Score × Option Move)) × SearchSt
  | [], min_eval, best_move, _, _, s => (.ok (min_eval, best_move), s)
  | move :: rest, min_eval, best_move, alpha, beta, s =>
    let s1 := pushB g move s
    let pos_hash := s1.cur.fingerprint
    let s1 : SearchSt :=
      { s1 with position_history := hSet s1.position_history pos_hash (hGet s1.position_history pos_hash + 1) }
    let r := recur alpha beta s1
    match r.1 with
    | .error Exc.timeout => (.error .timeout, popB r.2)
    | .error Exc.attr => (.error .attr, r.2)
    | .ok er =>
      let ev := er.1
      let s2 : SearchSt :=
        { r.2 with position_history := hSet r.2.position_history pos_hash (hGet r.2.position_history pos_hash - 1) }
      let s2 := popB s2
      let min_eval' := if Score.ltB ev min_eval then ev else min_eval
      let best_move' := if Score.ltB ev min_eval then some move else best_move
      let beta' := Score.minS beta ev
      if Score.leB beta' alpha then (.ok (min_eval', best_move'), s2)
      else abLoopMin g recur rest min_eval' best_move' alpha beta' s2

/-- alpha_beta (lines 79-141).  The depth argument is a natural number: every
call made by the engine starts from a positive iterative-deepening depth and
decrements down to the terminal test `depth == 0`. -/
def alpha_beta (cfg : EngineCfg) (g : Game) (clock : Nat → ℚ)
    (depth : Nat) (alpha beta : Score) (maximizing_player : Bool) (s : SearchSt) :
    (Except Exc (Score × Option Move)) × SearchSt :=
  let tu := is_time_up cfg clock s
  if tu.1 then (.error .timeout, tu.2)
  else
    let s := tu.2
    if hd : depth = 0 then terminalEval s
    else if s.cur.is_game_over then terminalEval s
    else
      let moves := s.cur.legal_moves
      let om := order_moves g s moves
      match om.1 with
      | .error e => (.error e, om.2)
      | .ok ordered_moves =>
        if maximizing_player then
          abLoopMax g (fun a b st => alpha_beta cfg g clock (depth - 1) a b false st)
            ordered_moves Score.negInf none alpha beta om.2
        else
          abLoopMin g (fun a b st => alpha_beta cfg g clock (depth - 1) a b true st)
            ordered_moves Score.posInf none alpha beta om.2
termination_by depth
decreasing_by all_goals omega

/-- The while loop of iterative_deepening (lines 146-156), with the
TimeoutError from alpha_beta consumed and any other exception propagating. -/
def idLoop (cfg : EngineCfg) (g : Game) (clock : Nat → ℚ)
    (current_depth : Int) (best_move : Option Move) (s : SearchSt) :
    (Except Exc (Option Move)) × SearchSt :=
  if hc : current_depth ≤ cfg.depth then
    let tu := is_time_up cfg clock s
    if tu.1 then (.ok best_move, tu.2)
    else
      let r := alpha_beta cfg g clock current_depth.toNat Score.negInf Score.posInf true tu.2
      match r.1 with
      | .error Exc.timeout => (.ok best_move, r.2)
      | .error Exc.attr => (.error .attr, r.2)
      | .ok sr =>
        let best_move :=
          match sr.2 with
          | some m => some m
          | none => best_move
        idLoop cfg g clock (current_depth + 1) best_move r.2
  else (.ok best_move, s)
termination_by (cfg.depth + 1 - current_depth).toNat
decreasing_by all_goals omega

def iterative_deepening (cfg : EngineCfg) (g : Game) (clock : Nat → ℚ) (s : SearchSt) :
    (Except Exc (Option Move)) × SearchSt :=
  idLoop cfg g clock 1 none s

/-- get_best_move (lines 160-167): record the start time, reset the
position_history dictionary, run iterative deepening, and on a normal return
read the clock once more for the timing message.  An exception other than the
consumed TimeoutError escapes to the caller. -/
def get_best_move (cfg : EngineCfg) (g : Game) (clock : Nat → ℚ) (board : Board)
    (position_history : List (Nat × Int)) (es : ChessEvaluator.EvalSt) (clock_idx : Nat) :
    (Except Exc (Option Move)) × SearchSt :=
  let s : SearchSt :=
    { stack := [], cur := board, position_history := position_history, es := es,
      clockIdx := clock_idx, start_time := 0 }
  let t := clock s.clockIdx
  let s : SearchSt := { s with clockIdx := s.clockIdx + 1, start_time := t }
  let s : SearchSt := { s with position_history := [] }
  let r := iterative_deepening cfg g clock s
  match r.1 with
  | .ok best_move =>
    let s2 : SearchSt := { r.2 with clockIdx := r.2.clockIdx + 1 }
    (.ok best_move, s2)
  | .error e => (.error e, r.2)

end ChessEngine

/-! Concrete positions used by the claim witnesses and counterexamples.
Each fixture records, as data, the answers the python-chess collaborator
gives on that position; `mkAttackers`, `mkIsAttackedBy` and `mkKing` derive
the attacker queries from the piece placement and per-square attack sets. -/

def wK : Piece := ⟨PieceType.king, true⟩
def wQ : Piece := ⟨PieceType.queen, true⟩
def wR : Piece := ⟨PieceType.rook, true⟩
def wB : Piece := ⟨PieceType.bishop, true⟩
def wN : Piece := ⟨PieceType.knight, true⟩
def wP : Piece := ⟨PieceType.pawn, true⟩
def bK : Piece := ⟨PieceType.king, false⟩
def bQ : Piece := ⟨PieceType.queen, false⟩
def bR : Piece := ⟨PieceType.rook, false⟩
def bB : Piece := ⟨PieceType.bishop, false⟩
def bN : Piece := ⟨PieceType.knight, false⟩
def bP : Piece := ⟨PieceType.pawn, false⟩

def lookupPiece (l : List (Nat × Piece)) (sq : Nat) : Option Piece :=
  (l.find? (fun p => p.1 == sq)).map (fun p => p.2)

def lookupAttacks (l : List (Nat × List Nat)) (sq : Nat) : List Nat :=
  match l.find? (fun p => p.1 == sq) with
  | some p => p.2
  | none => []

def mkAttackers (pieces : List (Nat × Piece)) (attacksL : List (Nat × List Nat))
    (c : Bool) (sq : Nat) : List Nat :=
  (pieces.filter (fun p => p.2.color == c && (lookupAttacks attacksL p.1).contains sq)).map
    (fun p => p.1)

def mkIsAttackedBy (pieces : List (Nat × Piece)) (attacksL : List (Nat × List Nat))
    (c : Bool) (sq : Nat) : Bool :=
  !(mkAttackers pieces attacksL c sq).isEmpty

def mkKing (pieces : List (Nat × Piece)) (c : Bool) : Option Nat :=
  (pieces.find? (fun p => p.2 == (⟨PieceType.king, c⟩ : Piece))).map (fun p => p.1)

/-- White Ke1, Pa2; Black Ke8; White to move.  A legal king-and-pawn
endgame position. -/
def bKPpieces : List (Nat × Piece) := [(4, wK), (8, wP), (60, bK)]

def bKPattacks : List (Nat × List Nat) :=
  [(4, [3, 5, 11, 12, 13]), (8, [17]), (60, [51, 52, 53, 59, 61])]

def bKP : Board :=
  { turn := true
    piece_at := lookupPiece bKPpieces
    legal_moves_for := fun c =>
      if c then
        [⟨8, 16, none⟩, ⟨8, 24, none⟩, ⟨4, 3, none⟩, ⟨4, 5, none⟩,
         ⟨4, 11, none⟩, ⟨4, 12, none⟩, ⟨4, 13, none⟩]
      else
        [⟨60, 59, none⟩, ⟨60, 61, none⟩, ⟨60, 51, none⟩, ⟨60, 52, none⟩, ⟨60, 53, none⟩]
    attacks := lookupAttacks bKPattacks
    attackers := mkAttackers bKPpieces bKPattacks
    is_attacked_by := mkIsAttackedBy bKPpieces bKPattacks
    king := mkKing bKPpieces
    has_castling_rights := fun _ => false
    is_checkmate := false
    is_stalemate := false
    is_insufficient_material := false
    is_check := false
    is_game_over := false
    is_capture := fun m => decide (m.to_square = 60)
    fingerprint := 5 }

/-- The move a2-a3 on `bKP`. -/
def mvA3 : Move := ⟨8, 16, none⟩

/-- `bKP` after a2-a3: White Ke1, Pa3; Black Ke8; Black to move. -/
def bKPa3pieces : List (Nat × Piece) := [(4, wK), (16, wP), (60, bK)]

def bKPa3attacks : List (Nat × List Nat) :=
  [(4, [3, 5, 11, 12, 13]), (16, [25]), (60, [51, 52, 53, 59, 61])]

def bKPa3 : Board :=
  { turn := false
    piece_at := lookupPiece bKPa3pieces
    legal_moves_for := fun c =>
      if c then
        [⟨16, 24, none⟩, ⟨4, 3, none⟩, ⟨4, 5, none⟩, ⟨4, 11, none⟩, ⟨4, 12, none⟩, ⟨4, 13, none⟩]
      else
        [⟨60, 59, none⟩, ⟨60, 61, none⟩, ⟨60, 51, none⟩, ⟨60, 52, none⟩, ⟨60, 53, none⟩]
    attacks := lookupAttacks bKPa3attacks
    attackers := mkAttackers bKPa3pieces bKPa3attacks
    is_attacked_by := mkIsAttackedBy bKPa3pieces bKPa3attacks
    king := mkKing bKPa3pieces
    has_castling_rights := fun _ => false
    is_checkmate := false
    is_stalemate := false
    is_insufficient_material := false
    is_check := false
    is_game_over := false
    is_capture := fun m => decide (m.to_square = 4 ∨ m.to_square = 16)
    fingerprint := 7 }

/-- The rules engine for searches rooted at `bKP`: only the push of a2-a3 is
ever taken before the move-ordering error fires. -/
def gKP : Game := ⟨fun b m => if m = mvA3 ∧ b.fingerprint = 5 then bKPa3 else b⟩

/-- The side-swapped mirror of `bKP`: White Ke1; Black Ke8, Pa7; Black to
move. -/
def bKPmPieces : List (Nat × Piece) := [(4, wK), (48, bP), (60, bK)]

def bKPmAttacks : List (Nat × List Nat) :=
  [(4, [3, 5, 11, 12, 13]), (48, [41]), (60, [51, 52, 53, 59, 61])]

def bKPm : Board :=
  { turn := false
    piece_at := lookupPiece bKPmPieces
    legal_moves_for := fun c =>
      if c then
        [⟨4, 3, none⟩, ⟨4, 5, none⟩, ⟨4, 11, none⟩, ⟨4, 12, none⟩, ⟨4, 13, none⟩]
      else
        [⟨48, 40, none⟩, ⟨48, 32, none⟩, ⟨60, 59, none⟩, ⟨60, 61, none⟩,
         ⟨60, 51, none⟩, ⟨60, 52, none⟩, ⟨60, 53, none⟩]
    attacks := lookupAttacks bKPmAttacks
    attackers := mkAttackers bKPmPieces bKPmAttacks
    is_attacked_by := mkIsAttackedBy bKPmPieces bKPmAttacks
    king := mkKing bKPmPieces
    has_castling_rights := fun _ => false
    is_checkmate := false
    is_stalemate := false
    is_insufficient_material := false
    is_check := false
    is_game_over := false
    is_capture := fun m => decide (m.to_square = 4)
    fingerprint := 6 }

/-- Stalemate: Black Ka8 to move, White Pa7, White Kb6.  Black has no legal
move and is not in check. -/
def bStalePieces : List (Nat × Piece) := [(56, bK), (48, wP), (41, wK)]

def bStaleAttacks : List (Nat × List Nat) :=
  [(56, [48, 49, 57]), (48, [57]), (41, [32, 33, 34, 40, 42, 48, 49, 50])]

def bStale : Board :=
  { turn := false
    piece_at := lookupPiece bStalePieces
    legal_moves_for := fun c =>
      if c then
        [⟨41, 32, none⟩, ⟨41, 33, none⟩, ⟨41, 34, none⟩, ⟨41, 40, none⟩,
         ⟨41, 42, none⟩, ⟨41, 50, none⟩]
      else []
    attacks := lookupAttacks bStaleAttacks
    attackers := mkAttackers bStalePieces bStaleAttacks
    is_attacked_by := mkIsAttackedBy bStalePieces bStaleAttacks
    king := mkKing bStalePieces
    has_castling_rights := fun _ => false
    is_checkmate := false
    is_stalemate := true
    is_insufficient_material := false
    is_check := false
    is_game_over := true
    is_capture := fun m => decide (m.to_square = 48 ∨ m.to_square = 41)
    fingerprint := 9 }

/-- Back-rank style mate: Black Ka8 to move is checkmated by Ra1 with the
White king on b6 guarding the escape squares. -/
def bMateBPieces : List (Nat × Piece) := [(56, bK), (41, wK), (0, wR)]

def bMateBAttacks : List (Nat × List Nat) :=
  [(56, [48, 49, 57]), (41, [32, 33, 34, 40, 42, 48, 49, 50]),
   (0, [1, 8, 16, 24, 32, 40, 48, 56])]

def bMateB : Board :=
  { turn := false
    piece_at := lookupPiece bMateBPieces
    legal_moves_for := fun c =>
      if c then
        [⟨0, 1, none⟩, ⟨0, 2, none⟩, ⟨0, 3, none⟩, ⟨0, 4, none⟩, ⟨0, 5, none⟩,
         ⟨0, 6, none⟩, ⟨0, 7, none⟩, ⟨0, 8, none⟩, ⟨0, 16, none⟩, ⟨0, 24, none⟩,
         ⟨0, 32, none⟩, ⟨0, 40, none⟩, ⟨0, 48, none⟩, ⟨0, 56, none⟩,
         ⟨41, 32, none⟩, ⟨41, 33, none⟩, ⟨41, 34, none⟩, ⟨41, 40, none⟩,
         ⟨41, 42, none⟩, ⟨41, 50, none⟩]
      else []
    attacks := lookupAttacks bMateBAttacks
    attackers := mkAttackers bMateBPieces bMateBAttacks
    is_attacked_by := mkIsAttackedBy bMateBPieces bMateBAttacks
    king := mkKing bMateBPieces
    has_castling_rights := fun _ => false
    is_checkmate := true
    is_stalemate := false
    is_insufficient_material := false
    is_check := true
    is_game_over := true
    is_capture := fun m => decide (m.to_square = 41 ∨ m.to_square = 0)
    fingerprint := 11 }

/-- A game value whose push is never exercised (used for searches that stop
before any move is applied). -/
def gid : Game := ⟨fun b _ => b⟩

/-- The wall clock frozen at 0: every time.time() call returns the same
reading. -/
def clock0 : Nat → ℚ := fun _ => 0

/-- The initial game-starting position (White to move, all castling rights). -/
def bInitPieces : List (Nat × Piece) :=
  [(0, wR), (1, wN), (2, wB), (3, wQ), (4, wK), (5, wB), (6, wN), (7, wR),
   (8, wP), (9, wP), (10, wP), (11, wP), (12, wP), (13, wP), (14, wP), (15, wP),
   (48, bP), (49, bP), (50, bP), (51, bP), (52, bP), (53, bP), (54, bP), (55, bP),
   (56, bR), (57, bN), (58, bB), (59, bQ), (60, bK), (61, bB), (62, bN), (63, bR)]

def bInitAttacks : List (Nat × List Nat) :=
  [(0, [1, 8]), (1, [11, 16, 18]), (2, [9, 11]), (3, [2, 4, 10, 11, 12]),
   (4, [3, 5, 11, 12, 13]), (5, [12, 14]), (6, [12, 21, 23]), (7, [6, 15]),
   (8, [17]), (9, [16, 18]), (10, [17, 19]), (11, [18, 20]), (12, [19, 21]),
   (13, [20, 22]), (14, [21, 23]), (15, [22]),
   (48, [41]), (49, [40, 42]), (50, [41, 43]), (51, [42, 44]), (52, [43, 45]),
   (53, [44, 46]), (54, [45, 47]), (55, [46]),
   (56, [48, 57]), (57, [40, 42, 51]), (58, [49, 51]), (59, [50, 51, 52, 58, 60]),
   (60, [51, 52, 53, 59, 61]), (61, [52, 54]), (62, [45, 47, 52]), (63, [55, 62])]

def bInitMovesW : List Move :=
  [⟨8, 16, none⟩, ⟨8, 24, none⟩, ⟨9, 17, none⟩, ⟨9, 25, none⟩, ⟨10, 18, none⟩,
   ⟨10, 26, none⟩, ⟨11, 19, none⟩, ⟨11, 27, none⟩, ⟨12, 20, none⟩, ⟨12, 28, none⟩,
   ⟨13, 21, none⟩, ⟨13, 29, none⟩, ⟨14, 22, none⟩, ⟨14, 30, none⟩, ⟨15, 23, none⟩,
   ⟨15, 31, none⟩, ⟨1, 16, none⟩, ⟨1, 18, none⟩, ⟨6, 21, none⟩, ⟨6, 23, none⟩]

def bInitMovesB : List Move :=
  [⟨48, 40, none⟩, ⟨48, 32, none⟩, ⟨49, 41, none⟩, ⟨49, 33, none⟩, ⟨50, 42, none⟩,
   ⟨50, 34, none⟩, ⟨51, 43, none⟩, ⟨51, 35, none⟩, ⟨52, 44, none⟩, ⟨52, 36, none⟩,
   ⟨53, 45, none⟩, ⟨53, 37, none⟩, ⟨54, 46, none⟩, ⟨54, 38, none⟩, ⟨55, 47, none⟩,
   ⟨55, 39, none⟩, ⟨57, 40, none⟩, ⟨57, 42, none⟩, ⟨62, 45, none⟩, ⟨62, 47, none⟩]

def bInit : Board :=
  { turn := true
    piece_at := lookupPiece bInitPieces
    legal_moves_for := fun c => if c then bInitMovesW else bInitMovesB
    attacks := lookupAttacks bInitAttacks
    attackers := mkAttackers bInitPieces bInitAttacks
    is_attacked_by := mkIsAttackedBy bInitPieces bInitAttacks
    king := mkKing bInitPieces
    has_castling_rights := fun _ => true
    is_checkmate := false
    is_stalemate := false
    is_insufficient_material := false
    is_check := false
    is_game_over := false
    is_capture := fun m => decide (48 ≤ m.to_square ∧ m.to_square ≤ 63)
    fingerprint := 1 }

/-- The initial position after a2-a3 (Black to move). -/
def bInitA3Pieces : List (Nat × Piece) :=
  [(0, wR), (1, wN), (2, wB), (3, wQ), (4, wK), (5, wB), (6, wN), (7, wR),
   (16, wP), (9, wP), (10, wP), (11, wP), (12, wP), (13, wP), (14, wP), (15, wP),
   (48, bP), (49, bP), (50, bP), (51, bP), (52, bP), (53, bP), (54, bP), (55, bP),
   (56, bR), (57, bN), (58, bB), (59, bQ), (60, bK), (61, bB), (62, bN), (63, bR)]

def bInitA3Attacks : List (Nat × List Nat) :=
  [(0, [1, 8, 16]), (1, [11, 16, 18]), (2, [9, 11]), (3, [2, 4, 10, 11, 12]),
   (4, [3, 5, 11, 12, 13]), (5, [12, 14]), (6, [12, 21, 23]), (7, [6, 15]),
   (16, [25]), (9, [16, 18]), (10, [17, 19]), (11, [18, 20]), (12, [19, 21]),
   (13, [20, 22]), (14, [21, 23]), (15, [22]),
   (48, [41]), (49, [40, 42]), (50, [41, 43]), (51, [42, 44]), (52, [43, 45]),
   (53, [44, 46]), (54, [45, 47]), (55, [46]),
   (56, [48, 57]), (57, [40, 42, 51]), (58, [49, 51]), (59, [50, 51, 52, 58, 60]),
   (60, [51, 52, 53, 59, 61]), (61, [52, 54]), (62, [45, 47, 52]), (63, [55, 62])]

def bInitA3 : Board :=
  { turn := false
    piece_at := lookupPiece bInitA3Pieces
    legal_moves_for := fun c =>
      if c then
        [⟨16, 24, none⟩, ⟨9, 17, none⟩, ⟨9, 25, none⟩, ⟨10, 18, none⟩, ⟨10, 26, none⟩,
         ⟨11, 19, none⟩, ⟨11, 27, none⟩, ⟨12, 20, none⟩, ⟨12, 28, none⟩, ⟨13, 21, none⟩,
         ⟨13, 29, none⟩, ⟨14, 22, none⟩, ⟨14, 30, none⟩, ⟨15, 23, none⟩, ⟨15, 31, none⟩,
         ⟨1, 18, none⟩, ⟨6, 21, none⟩, ⟨6, 23, none⟩, ⟨0, 8, none⟩]
      else bInitMovesB
    attacks := lookupAttacks bInitA3Attacks
    attackers := mkAttackers bInitA3Pieces bInitA3Attacks
    is_attacked_by := mkIsAttackedBy bInitA3Pieces bInitA3Attacks
    king := mkKing bInitA3Pieces
    has_castling_rights := fun _ => true
    is_checkmate := false
    is_stalemate := false
    is_insufficient_material := false
    is_check := false
    is_game_over := false
    is_capture := fun m => decide (m.to_square ≤ 16 ∧ m.to_square ≠ 8)
    fingerprint := 2 }

/-- The rules engine for searches rooted at the initial position: the
move-ordering error fires while scoring the first candidate move, so only the
push of a2-a3 is ever taken. -/
def g1 : Game := ⟨fun b m => if m = mvA3 ∧ b.fingerprint = 1 then bInitA3 else b⟩

/-- C6 scenario.  White Ke1, Pb6; Black Ka8; White to move; b6-b7+ gives a
check whose checking pawn can be captured by Kxb7. -/
def b6BasePieces : List (Nat × Piece) := [(4, wK), (41, wP), (56, bK)]

def b6BaseAttacks : List (Nat × List Nat) :=
  [(4, [3, 5, 11, 12, 13]), (41, [48, 50]), (56, [48, 49, 57])]

def b6Base : Board :=
  { turn := true
    piece_at := lookupPiece b6BasePieces
    legal_moves_for := fun c =>
      if c then
        [⟨41, 49, none⟩, ⟨4, 3, none⟩, ⟨4, 5, none⟩, ⟨4, 11, none⟩, ⟨4, 12, none⟩, ⟨4, 13, none⟩]
      else [⟨56, 49, none⟩, ⟨56, 57, none⟩]
    attacks := lookupAttacks b6BaseAttacks
    attackers := mkAttackers b6BasePieces b6BaseAttacks
    is_attacked_by := mkIsAttackedBy b6BasePieces b6BaseAttacks
    king := mkKing b6BasePieces
    has_castling_rights := fun _ => false
    is_checkmate := false
    is_stalemate := false
    is_insufficient_material := false
    is_check := false
    is_game_over := false
    is_capture := fun m => decide (m.to_square = 56)
    fingerprint := 20 }

/-- The checking move b6-b7+. -/
def mv6 : Move := ⟨41, 49, none⟩

/-- `b6Base` after b6-b7+: Black to move, in check from the pawn on b7;
Black's replies are Ka7, Kb8 and Kxb7. -/
def b6AfterPieces : List (Nat × Piece) := [(4, wK), (49, wP), (56, bK)]

def b6AfterAttacks : List (Nat × List Nat) :=
  [(4, [3, 5, 11, 12, 13]), (49, [56, 58]), (56, [48, 49, 57])]

def b6After : Board :=
  { turn := false
    piece_at := lookupPiece b6AfterPieces
    legal_moves_for := fun c =>
      if c then
        [⟨4, 3, none⟩, ⟨4, 5, none⟩, ⟨4, 11, none⟩, ⟨4, 12, none⟩, ⟨4, 13, none⟩,
         ⟨49, 57, some PieceType.queen⟩, ⟨49, 57, some PieceType.rook⟩,
         ⟨49, 57, some PieceType.bishop⟩, ⟨49, 57, some PieceType.knight⟩,
         ⟨49, 56, some PieceType.queen⟩, ⟨49, 56, some PieceType.rook⟩,
         ⟨49, 56, some PieceType.bishop⟩, ⟨49, 56, some PieceType.knight⟩]
      else [⟨56, 48, none⟩, ⟨56, 57, none⟩, ⟨56, 49, none⟩]
    attacks := lookupAttacks b6AfterAttacks
    attackers := mkAttackers b6AfterPieces b6AfterAttacks
    is_attacked_by := mkIsAttackedBy b6AfterPieces b6AfterAttacks
    king := mkKing b6AfterPieces
    has_castling_rights := fun _ => false
    is_checkmate := false
    is_stalemate := false
    is_insufficient_material := false
    is_check := true
    is_game_over := false
    is_capture := fun m => decide (m.to_square = 4 ∨ m.to_square = 49)
    fingerprint := 21 }

/-- `b6After` after Kxb7 (the reply that captures the checking pawn). -/
def b6r1Pieces : List (Nat × Piece) := [(4, wK), (49, bK)]

def b6r1Attacks : List (Nat × List Nat) :=
  [(4, [3, 5, 11, 12, 13]), (49, [40, 41, 42, 48, 50, 56, 57, 58])]

def b6r1 : Board :=
  { turn := true
    piece_at := lookupPiece b6r1Pieces
    legal_moves_for := fun c =>
      if c then [⟨4, 3, none⟩, ⟨4, 5, none⟩, ⟨4, 11, none⟩, ⟨4, 12, none⟩, ⟨4, 13, none⟩]
      else [⟨49, 40, none⟩, ⟨49, 41, none⟩, ⟨49, 42, none⟩, ⟨49, 48, none⟩,
            ⟨49, 50, none⟩, ⟨49, 56, none⟩, ⟨49, 57, none⟩, ⟨49, 58, none⟩]
    attacks := lookupAttacks b6r1Attacks
    attackers := mkAttackers b6r1Pieces b6r1Attacks
    is_attacked_by := mkIsAttackedBy b6r1Pieces b6r1Attacks
    king := mkKing b6r1Pieces
    has_castling_rights := fun _ => false
    is_checkmate := false
    is_stalemate := false
    is_insufficient_material := true
    is_check := false
    is_game_over := true
    is_capture := fun m => decide (m.to_square = 49)
    fingerprint := 22 }

/-- `b6After` after Ka7. -/
def b6r2Pieces : List (Nat × Piece) := [(4, wK), (49, wP), (48, bK)]

def b6r2Attacks : List (Nat × List Nat) :=
  [(4, [3, 5, 11, 12, 13]), (49, [56, 58]), (48, [40, 41, 49, 56, 57])]

def b6r2 : Board :=
  { turn := true
    piece_at := lookupPiece b6r2Pieces
    legal_moves_for := fun c =>
      if c then
        [⟨4, 3, none⟩, ⟨4, 5, none⟩, ⟨4, 11, none⟩, ⟨4, 12, none⟩, ⟨4, 13, none⟩,
         ⟨49, 57, some PieceType.queen⟩, ⟨49, 57, some PieceType.rook⟩,
         ⟨49, 57, some PieceType.bishop⟩, ⟨49, 57, some PieceType.knight⟩]
      else [⟨48, 40, none⟩, ⟨48, 41, none⟩, ⟨48, 56, none⟩, ⟨48, 49, none⟩]
    attacks := lookupAttacks b6r2Attacks
    attackers := mkAttackers b6r2Pieces b6r2Attacks
    is_attacked_by := mkIsAttackedBy b6r2Pieces b6r2Attacks
    king := mkKing b6r2Pieces
    has_castling_rights := fun _ => false
    is_checkmate := false
    is_stalemate := false
    is_insufficient_material := false
    is_check := false
    is_game_over := false
    is_capture := fun m => decide (m.to_square = 48)
    fingerprint := 23 }

/-- `b6After` after Kb8. -/
def b6r3Pieces : List (Nat × Piece) := [(4, wK), (49, wP), (57, bK)]

def b6r3Attacks : List (Nat × List Nat) :=
  [(4, [3, 5, 11, 12, 13]), (49, [56, 58]), (57, [48, 49, 50, 56, 58])]

def b6r3 : Board :=
  { turn := true
    piece_at := lookupPiece b6r3Pieces
    legal_moves_for := fun c =>
      if c then [⟨4, 3, none⟩, ⟨4, 5, none⟩, ⟨4, 11, none⟩, ⟨4, 12, none⟩, ⟨4, 13, none⟩]
      else [⟨57, 48, none⟩, ⟨57, 50, none⟩, ⟨57, 49, none⟩]
    attacks := lookupAttacks b6r3Attacks
    attackers := mkAttackers b6r3Pieces b6r3Attacks
    is_attacked_by := mkIsAttackedBy b6r3Pieces b6r3Attacks
    king := mkKing b6r3Pieces
    has_castling_rights := fun _ => false
    is_checkmate := false
    is_stalemate := false
    is_insufficient_material := false
    is_check := false
    is_game_over := false
    is_capture := fun m => decide (m.to_square = 57)
    fingerprint := 24 }

/-- The rules engine for the C6 scenario. -/
def g6 : Game :=
  ⟨fun b m =>
    if b.fingerprint = 21 ∧ m = (⟨56, 49, none⟩ : Move) then b6r1
    else if b.fingerprint = 21 ∧ m = (⟨56, 48, none⟩ : Move) then b6r2
    else if b.fingerprint = 21 ∧ m = (⟨56, 57, none⟩ : Move) then b6r3
    else if b.fingerprint = 20 ∧ m = mv6 then b6After
    else b⟩

/-! General lemmas about the embedded code. -/

theorem popB_pushB (g : Game) (m : Move) (s : SearchSt) :
    ChessEngine.popB (ChessEngine.pushB g m s) = s := rfl

theorem popB_hist (s : SearchSt) :
    (ChessEngine.popB s).position_history = s.position_history := by
  unfold ChessEngine.popB; split <;> rfl

theorem _evaluate_mobility_snd (b : Board) : (ChessEvaluator._evaluate_mobility b).2 = b := rfl

/-- The board handed to evaluate comes back unchanged: the mobility step's
turn rewriting is undone before evaluate returns. -/
theorem evaluate_snd_snd (es : ChessEvaluator.EvalSt) (b : Board) :
    (ChessEvaluator.evaluate es b).2.2 = b := by
  unfold ChessEvaluator.evaluate
  cases h1 : b.is_checkmate
  · cases h2 : b.is_stalemate
    · cases h3 : b.is_insufficient_material
      · cases h4 : ChessEvaluator._is_endgame b <;>
          simp [h1, h2, h3, h4, _evaluate_mobility_snd]
      · simp [h1, h2, h3]
    · simp [h1, h2]
  · simp [h1]

/-- The returned score does not depend on the evaluator state handed in: the
king piece-square table is reassigned from the position's phase before any
read of it. -/
theorem evaluate_fst_es (es1 es2 : ChessEvaluator.EvalSt) (b : Board) :
    (ChessEvaluator.evaluate es1 b).1 = (ChessEvaluator.evaluate es2 b).1 := by
  unfold ChessEvaluator.evaluate
  cases h1 : b.is_checkmate
  · cases h2 : b.is_stalemate
    · cases h3 : b.is_insufficient_material <;> simp [h1, h2, h3]
    · simp [h1, h2]
  · simp [h1]

theorem checkReplyLoop_snd (g : Game) (mp : Option Piece) (l : List Move) (acc : ℚ × SearchSt) :
    (ChessEngine.checkReplyLoop g mp l acc).2 = acc.2 := by
  induction l generalizing acc with
  | nil => rfl
  | cons om rest ih => simp [ChessEngine.checkReplyLoop, popB_pushB, ih]

theorem checkBlock_hist (g : Game) (mp : Option Piece) (sc : ℚ) (s1 : SearchSt) :
    (ChessEngine.checkBlock g mp sc s1).2.position_history = s1.position_history := by
  unfold ChessEngine.checkBlock
  cases h1 : s1.cur.is_checkmate
  · cases h2 : s1.cur.is_check <;> simp [h1, h2, checkReplyLoop_snd]
  · simp [h1]

/-- Scoring a candidate move always ends in the AttributeError of the
misnamed defense-evaluation attribute, whichever path the earlier heuristics
took. -/
theorem scoreMove_fst (g : Game) (s : SearchSt) (m : Move) :
    (ChessEngine.scoreMove g s m).1 = Except.error Exc.attr := by
  unfold ChessEngine.scoreMove
  rcases hc : s.cur.piece_at m.to_square with _ | cp <;>
    rcases hm : s.cur.piece_at m.from_square with _ | mp <;>
      simp [hc, hm]

theorem scoreMove_hist (g : Game) (s : SearchSt) (m : Move) :
    (ChessEngine.scoreMove g s m).2.position_history = s.position_history := by
  unfold ChessEngine.scoreMove
  rcases hc : s.cur.piece_at m.to_square with _ | cp <;>
    rcases hm : s.cur.piece_at m.from_square with _ | mp <;>
      simp [hc, hm, ChessEngine.pushB, popB_hist, checkBlock_hist] <;>
        split <;> simp [ChessEngine.pushB, popB_hist, checkBlock_hist]

theorem orderLoop_fst_cons (g : Game) (m : Move) (rest : List Move)
    (ms : List (Move × ℚ)) (s : SearchSt) :
    (ChessEngine.orderLoop g (m :: rest) ms s).1 = Except.error Exc.attr := by
  simp [ChessEngine.orderLoop, scoreMove_fst]

theorem orderLoop_hist (g : Game) (l : List Move) (ms : List (Move × ℚ)) (s : SearchSt) :
    (ChessEngine.orderLoop g l ms s).2.position_history = s.position_history := by
  cases l with
  | nil => rfl
  | cons m rest => simp [ChessEngine.orderLoop, scoreMove_fst, scoreMove_hist]

theorem order_moves_fst_cons (g : Game) (s : SearchSt) (m : Move) (rest : List Move) :
    (ChessEngine.order_moves g s (m :: rest)).1 = Except.error Exc.attr := by
  simp [ChessEngine.order_moves, ChessEngine.orderLoop, scoreMove_fst]

theorem order_moves_hist (g : Game) (s : SearchSt) (moves : List Move) :
    (ChessEngine.order_moves g s moves).2.position_history = s.position_history := by
  cases moves with
  | nil => rfl
  | cons m rest => simp [ChessEngine.order_moves, ChessEngine.orderLoop, scoreMove_fst, scoreMove_hist]

theorem terminalEval_hist (s : SearchSt) :
    (ChessEngine.terminalEval s).2.position_history = s.position_history := rfl

theorem is_time_up_snd_hist (cfg : EngineCfg) (clock : Nat → ℚ) (s : SearchSt) :
    (ChessEngine.is_time_up cfg clock s).2.position_history = s.position_history := rfl

/-- alpha_beta cannot change the position-history: any call either stops at
the deadline, stops at a terminal node, or fails in move ordering before the
search loop makes its first increment (a position with no legal moves runs an
empty loop). -/
theorem alpha_beta_hist (cfg : EngineCfg) (g : Game) (clock : Nat → ℚ) (d : Nat)
    (a b : Score) (mx : Bool) (s : SearchSt) :
    (ChessEngine.alpha_beta cfg g clock d a b mx s).2.position_history = s.position_history := by
  unfold ChessEngine.alpha_beta
  cases htu : (ChessEngine.is_time_up cfg clock s).1
  · cases hd : d with
    | zero =>
      simp [htu, terminalEval_hist, is_time_up_snd_hist]
    | succ d' =>
      cases hgo : (ChessEngine.is_time_up cfg clock s).2.cur.is_game_over
      · rcases hl : (ChessEngine.is_time_up cfg clock s).2.cur.legal_moves with _ | ⟨m, rest⟩
        · cases mx <;>
            simp [htu, hgo, hl, ChessEngine.order_moves, ChessEngine.orderLoop,
              ChessEngine.sortDesc, ChessEngine.abLoopMax, ChessEngine.abLoopMin,
              is_time_up_snd_hist]
        · cases mx <;>
            simp [htu, hgo, hl, order_moves_fst_cons, order_moves_hist, is_time_up_snd_hist]
      · simp [htu, hgo, terminalEval_hist, is_time_up_snd_hist]
  · simp [htu, is_time_up_snd_hist]

theorem idLoop_hist (cfg : EngineCfg) (g : Game) (clock : Nat → ℚ)
    (c : Int) (best : Option Move) (s : SearchSt) :
    (ChessEngine.idLoop cfg g clock c best s).2.position_history = s.position_history := by
  induction c, best, s using ChessEngine.idLoop.induct cfg g clock <;>
    (unfold ChessEngine.idLoop;
     first
     | (simp_all +zetaDelta [is_time_up_snd_hist, alpha_beta_hist]; done)
     | (split <;> first | rfl | (exfalso; omega)))

/-! Evaluation of the fixtures. -/

set_option maxHeartbeats 1600000 in
theorem bKP_is_endgame : ChessEvaluator._is_endgame bKP = true := by
  norm_num +decide [ChessEvaluator._is_endgame, ChessEvaluator.nonKingTypes,
    ChessEvaluator.PIECE_VALUES, Board.pieces, bKP, bKPpieces, lookupPiece, wK, wP, bK,
    List.range_succ]

set_option maxHeartbeats 1600000 in
theorem bKP_material :
    ChessEvaluator._evaluate_material_and_position ⟨ChessEvaluator.KING_ENDGAME_TABLE⟩ bKP = 150 := by
  norm_num +decide [ChessEvaluator._evaluate_material_and_position,
    ChessEvaluator._get_position_value, ChessEvaluator.PIECE_POSITION_SCORES,
    ChessEvaluator.PIECE_VALUES, ChessEvaluator.PAWN_TABLE, ChessEvaluator.KING_ENDGAME_TABLE,
    bKP, bKPpieces, bKPattacks, lookupPiece, lookupAttacks, wK, wP, bK,
    square_mirror, squareAt, square_file, square_rank, List.range_succ]

set_option maxHeartbeats 1600000 in
theorem bKP_centralization : ChessEvaluator._evaluate_king_centralization bKP = 0 := by
  norm_num +decide [ChessEvaluator._evaluate_king_centralization, bKP, bKPpieces, mkKing,
    wK, wP, bK, square_file, square_rank]

set_option maxHeartbeats 1600000 in
theorem bKP_passed : ChessEvaluator._evaluate_passed_pawns bKP = 60 := by
  norm_num +decide [ChessEvaluator._evaluate_passed_pawns, ChessEvaluator._is_passed_pawn,
    bKP, bKPpieces, lookupPiece, wK, wP, bK, square_file, square_rank, squareAt, pyRange,
    List.range_succ]

set_option maxHeartbeats 1600000 in
theorem bKP_mobility : (ChessEvaluator._evaluate_mobility bKP).1 = 2 := by
  norm_num +decide [ChessEvaluator._evaluate_mobility, Board.legal_moves, bKP, bKPpieces,
    lookupPiece, wK, wP, bK]

set_option maxHeartbeats 800000 in
theorem evaluate_bKP (es : ChessEvaluator.EvalSt) :
    ChessEvaluator.evaluate es bKP =
      (Score.val (12753/5), ⟨ChessEvaluator.KING_ENDGAME_TABLE⟩, bKP) := by
  have h1 : bKP.is_checkmate = false := rfl
  have h2 : bKP.is_stalemate = false := rfl
  have h3 : bKP.is_insufficient_material = false := rfl
  have h4 : bKP.turn = true := rfl
  have h5 : ∀ c, bKP.has_castling_rights c = false := fun _ => rfl
  norm_num [ChessEvaluator.evaluate, h1, h2, h3, h4, h5, bKP_is_endgame, bKP_material,
    bKP_centralization, bKP_passed, bKP_mobility, _evaluate_mobility_snd]

set_option maxHeartbeats 1600000 in
theorem bKPm_is_endgame : ChessEvaluator._is_endgame bKPm = true := by
  norm_num +decide [ChessEvaluator._is_endgame, ChessEvaluator.nonKingTypes,
    ChessEvaluator.PIECE_VALUES, Board.pieces, bKPm, bKPmPieces, lookupPiece, wK, wP, bK, bP,
    List.range_succ]

set_option maxHeartbeats 1600000 in
theorem bKPm_material :
    ChessEvaluator._evaluate_material_and_position ⟨ChessEvaluator.KING_ENDGAME_TABLE⟩ bKPm = -150 := by
  norm_num +decide [ChessEvaluator._evaluate_material_and_position,
    ChessEvaluator._get_position_value, ChessEvaluator.PIECE_POSITION_SCORES,
    ChessEvaluator.PIECE_VALUES, ChessEvaluator.PAWN_TABLE, ChessEvaluator.KING_ENDGAME_TABLE,
    bKPm, bKPmPieces, bKPmAttacks, lookupPiece, lookupAttacks, wK, wP, bK, bP,
    square_mirror, squareAt, square_file, square_rank, List.range_succ]

set_option maxHeartbeats 1600000 in
theorem bKPm_centralization : ChessEvaluator._evaluate_king_centralization bKPm = 0 := by
  norm_num +decide [ChessEvaluator._evaluate_king_centralization, bKPm, bKPmPieces, mkKing,
    wK, wP, bK, bP, square_file, square_rank]

set_option maxHeartbeats 1600000 in
theorem bKPm_passed : ChessEvaluator._evaluate_passed_pawns bKPm = -60 := by
  norm_num +decide [ChessEvaluator._evaluate_passed_pawns, ChessEvaluator._is_passed_pawn,
    bKPm, bKPmPieces, lookupPiece, wK, wP, bK, bP, square_file, square_rank, squareAt, pyRange,
    List.range_succ]

set_option maxHeartbeats 1600000 in
theorem bKPm_mobility : (ChessEvaluator._evaluate_mobility bKPm).1 = -2 := by
  norm_num +decide [ChessEvaluator._evaluate_mobility, Board.legal_moves, bKPm, bKPmPieces,
    lookupPiece, wK, wP, bK, bP]

set_option maxHeartbeats 800000 in
theorem evaluate_bKPm (es : ChessEvaluator.EvalSt) :
    ChessEvaluator.evaluate es bKPm =
      (Score.val (12753/5), ⟨ChessEvaluator.KING_ENDGAME_TABLE⟩, bKPm) := by
  have h1 : bKPm.is_checkmate = false := rfl
  have h2 : bKPm.is_stalemate = false := rfl
  have h3 : bKPm.is_insufficient_material = false := rfl
  have h4 : bKPm.turn = false := rfl
  have h5 : ∀ c, bKPm.has_castling_rights c = false := fun _ => rfl
  norm_num [ChessEvaluator.evaluate, h1, h2, h3, h4, h5, bKPm_is_endgame, bKPm_material,
    bKPm_centralization, bKPm_passed, bKPm_mobility, _evaluate_mobility_snd]

set_option maxHeartbeats 1600000 in
theorem b6After_is_endgame : ChessEvaluator._is_endgame b6After = true := by
  norm_num +decide [ChessEvaluator._is_endgame, ChessEvaluator.nonKingTypes,
    ChessEvaluator.PIECE_VALUES, Board.pieces, b6After, b6AfterPieces, lookupPiece, wK, wP, bK,
    List.range_succ]

set_option maxHeartbeats 1600000 in
theorem b6After_material :
    ChessEvaluator._evaluate_material_and_position ⟨ChessEvaluator.KING_ENDGAME_TABLE⟩ b6After = 140 := by
  norm_num +decide [ChessEvaluator._evaluate_material_and_position,
    ChessEvaluator._get_position_value, ChessEvaluator.PIECE_POSITION_SCORES,
    ChessEvaluator.PIECE_VALUES, ChessEvaluator.PAWN_TABLE, ChessEvaluator.KING_ENDGAME_TABLE,
    b6After, b6AfterPieces, b6AfterAttacks, lookupPiece, lookupAttacks, wK, wP, bK,
    square_mirror, squareAt, square_file, square_rank, List.range_succ]

set_option maxHeartbeats 1600000 in
theorem b6After_centralization : ChessEvaluator._evaluate_king_centralization b6After = 3 := by
  norm_num +decide [ChessEvaluator._evaluate_king_centralization, b6After, b6AfterPieces, mkKing,
    wK, wP, bK, square_file, square_rank]

set_option maxHeartbeats 1600000 in
theorem b6After_passed : ChessEvaluator._evaluate_passed_pawns b6After = 110 := by
  norm_num +decide [ChessEvaluator._evaluate_passed_pawns, ChessEvaluator._is_passed_pawn,
    b6After, b6AfterPieces, lookupPiece, wK, wP, bK, square_file, square_rank, squareAt, pyRange,
    List.range_succ]

set_option maxHeartbeats 1600000 in
theorem b6After_mobility : (ChessEvaluator._evaluate_mobility b6After).1 = 8 := by
  norm_num +decide [ChessEvaluator._evaluate_mobility, Board.legal_moves, b6After, b6AfterPieces,
    lookupPiece, wK, wP, bK]

set_option maxHeartbeats 800000 in
theorem evaluate_b6After (es : ChessEvaluator.EvalSt) :
    ChessEvaluator.evaluate es b6After =
      (Score.val (-(23462/5)), ⟨ChessEvaluator.KING_ENDGAME_TABLE⟩, b6After) := by
  have h1 : b6After.is_checkmate = false := rfl
  have h2 : b6After.is_stalemate = false := rfl
  have h3 : b6After.is_insufficient_material = false := rfl
  have h4 : b6After.turn = false := rfl
  have h5 : ∀ c, b6After.has_castling_rights c = false := fun _ => rfl
  norm_num [ChessEvaluator.evaluate, h1, h2, h3, h4, h5, b6After_is_endgame, b6After_material,
    b6After_centralization, b6After_passed, b6After_mobility, _evaluate_mobility_snd]

theorem evaluate_bStale (es : ChessEvaluator.EvalSt) :
    ChessEvaluator.evaluate es bStale = (Score.val 0, es, bStale) := by
  have h1 : bStale.is_checkmate = false := rfl
  have h2 : bStale.is_stalemate = true := rfl
  simp [ChessEvaluator.evaluate, h1, h2]

theorem evaluate_bMateB (es : ChessEvaluator.EvalSt) :
    ChessEvaluator.evaluate es bMateB = (Score.posInf, es, bMateB) := by
  have h1 : bMateB.is_checkmate = true := rfl
  have h4 : bMateB.turn = false := rfl
  simp [ChessEvaluator.evaluate, h1, h4]

theorem is_time_up_snd_cur (cfg : EngineCfg) (clock : Nat → ℚ) (s : SearchSt) :
    (ChessEngine.is_time_up cfg clock s).2.cur = s.cur := rfl

/-- Any alpha_beta call that reaches move ordering with at least one legal
move fails with the AttributeError of the misnamed defense attribute. -/
theorem alpha_beta_attr (cfg : EngineCfg) (g : Game) (clock : Nat → ℚ) (d : Nat)
    (a bt : Score) (mx : Bool) (s : SearchSt)
    (ht : ¬(clock s.clockIdx - s.start_time > cfg.time_limit))
    (hd : d ≠ 0) (hgo : s.cur.is_game_over = false)
    (m : Move) (rest : List Move) (hmv : s.cur.legal_moves = m :: rest) :
    (ChessEngine.alpha_beta cfg g clock d a bt mx s).1 = Except.error Exc.attr := by
  unfold ChessEngine.alpha_beta
  have h1 : (ChessEngine.is_time_up cfg clock s).1 = false := by
    simp [ChessEngine.is_time_up, ht]
  have h2 : (ChessEngine.is_time_up cfg clock s).2.cur.legal_moves = m :: rest := hmv
  have h3 : (ChessEngine.is_time_up cfg clock s).2.cur.is_game_over = false := hgo
  simp [h1, h2, h3, hd, order_moves_fst_cons]

/-- C2: the per-move scoring loop of order_moves always ends in the
AttributeError raised by looking up the non-existent defense-evaluation
attribute on the evaluator, so no ordering score — in particular none that
could include the piece-protection sub-score — is ever produced. -/
theorem C2_score_step_always_raises (g : Game) (s : SearchSt) (m : Move) :
    (ChessEngine.scoreMove g s m).1 = Except.error Exc.attr :=
  scoreMove_fst g s m

/-- C4 (amended): when the side to move is checkmated, evaluate returns the
sentinel in the absolute first-side frame — the minus-extreme exactly when
the checkmated mover is the first side, the plus-extreme when it is the
second side — bypassing the final mover-perspective negation. -/
theorem C4_checkmate_sentinel_absolute (es : ChessEvaluator.EvalSt) (b : Board)
    (h : b.is_checkmate = true) :
    (ChessEvaluator.evaluate es b).1 = if b.turn then Score.negInf else Score.posInf := by
  unfold ChessEvaluator.evaluate
  simp [h]

theorem C4_checkmate_sentinel_absolute_witness :
    bMateB.is_checkmate = true ∧
      (ChessEvaluator.evaluate ChessEvaluator.init bMateB).1 =
        if bMateB.turn then Score.negInf else Score.posInf :=
  ⟨rfl, C4_checkmate_sentinel_absolute ChessEvaluator.init bMateB rfl⟩

/-- C4 counterexample: Black (the second side) to move is checkmated on
`bMateB`, yet evaluate returns the plus-extreme sentinel, not the
minus-extreme the claim demands for every checkmated mover. -/
theorem C4_cex :
    bMateB.is_checkmate = true ∧ bMateB.turn = false ∧
      (ChessEvaluator.evaluate ChessEvaluator.init bMateB).1 = Score.posInf ∧
      Score.posInf ≠ Score.negInf := by
  refine ⟨rfl, rfl, ?_, by decide⟩
  simp [evaluate_bMateB]

/-- C9: evaluate is observationally pure: the score is the same function of
the board whatever evaluator state (king piece-square table) is handed in,
and the board object comes back exactly as it was given — the mobility
step's temporary rewriting of the side to move is always undone. -/
theorem C9_evaluate_pure (es1 es2 es : ChessEvaluator.EvalSt) (b : Board) :
    (ChessEvaluator.evaluate es1 b).1 = (ChessEvaluator.evaluate es2 b).1 ∧
      (ChessEvaluator.evaluate es b).2.2 = b :=
  ⟨evaluate_fst_es es1 es2 b, evaluate_snd_snd es b⟩

/-- C10 (amended): at depth 0 alpha_beta ignores the maximizing flag
entirely: the maximizing=true and maximizing=false calls on the same
position, window and state are identical, each returning that position's
terminal evaluation.  The claimed negation between a position and its
side-swapped mirror therefore has no structural support at depth 0, and the
counterexample exhibits a dampening-free mirror pair on which it fails. -/
theorem C10_depth0_flag_irrelevant (cfg : EngineCfg) (g : Game) (clock : Nat → ℚ)
    (a b : Score) (s : SearchSt) :
    ChessEngine.alpha_beta cfg g clock 0 a b true s =
      ChessEngine.alpha_beta cfg g clock 0 a b false s := by
  unfold ChessEngine.alpha_beta
  simp

def sC10p : SearchSt :=
  { stack := [], cur := bKP, position_history := [], es := ChessEvaluator.init,
    clockIdx := 0, start_time := 0 }

def sC10m : SearchSt :=
  { stack := [], cur := bKPm, position_history := [], es := ChessEvaluator.init,
    clockIdx := 0, start_time := 0 }

/-- C10 counterexample: on the king-and-pawn position `bKP` and its
side-swapped mirror `bKPm`, the depth-0 calls with maximizing=true and
maximizing=false return the same score 2550.6 — equal, not negatives of
each other — and no repetition dampening fires on either search (both
histories are empty), refuting the claimed negation relation at d = 0. -/
theorem C10_cex :
    (ChessEngine.alpha_beta ⟨3, 10⟩ gid clock0 0 Score.negInf Score.posInf true sC10p).1 =
        Except.ok (Score.val (12753/5), none) ∧
      (ChessEngine.alpha_beta ⟨3, 10⟩ gid clock0 0 Score.negInf Score.posInf false sC10m).1 =
        Except.ok (Score.val (12753/5), none) ∧
      Score.neg (Score.val (12753/5)) ≠ Score.val (12753/5) := by
  refine ⟨?_, ?_, by norm_num [Score.neg]⟩ <;>
    (unfold ChessEngine.alpha_beta
     norm_num +decide [ChessEngine.is_time_up, ChessEngine.terminalEval, sC10p, sC10m, clock0,
       evaluate_bKP, evaluate_bKPm, ChessEngine.hMem, Score.absGT500, Score.mul08])

/-- C5 (amended): at a terminal alpha_beta node reached before the deadline,
the raw evaluation is multiplied by 0.8 exactly when the position's
fingerprint is present as a key of position_history — regardless of the
count stored there, zero included — and the magnitude of the raw evaluation
exceeds 500; otherwise it is returned unchanged. -/
theorem C5_terminal_dampening_key (cfg : EngineCfg) (g : Game) (clock : Nat → ℚ)
    (d : Nat) (a b : Score) (mx : Bool) (s : SearchSt)
    (ht : ¬(clock s.clockIdx - s.start_time > cfg.time_limit))
    (hterm : d = 0 ∨ s.cur.is_game_over = true) :
    (ChessEngine.alpha_beta cfg g clock d a b mx s).1 =
      Except.ok
        ((if ChessEngine.hMem s.position_history s.cur.fingerprint &&
              Score.absGT500 (ChessEvaluator.evaluate s.es s.cur).1
          then Score.mul08 (ChessEvaluator.evaluate s.es s.cur).1
          else (ChessEvaluator.evaluate s.es s.cur).1), none) := by
  unfold ChessEngine.alpha_beta
  have h1 : (ChessEngine.is_time_up cfg clock s).1 = false := by
    simp [ChessEngine.is_time_up, ht]
  rcases hterm with h | h
  · subst h
    simp [ht, h1, ChessEngine.terminalEval, ChessEngine.is_time_up, evaluate_snd_snd]
  · cases hd0 : d with
    | zero => simp [ht, h1, ChessEngine.terminalEval, ChessEngine.is_time_up, evaluate_snd_snd]
    | succ d' =>
      simp [ht, h, h1, ChessEngine.terminalEval, ChessEngine.is_time_up, evaluate_snd_snd]

def sC5w : SearchSt :=
  { stack := [], cur := bKP, position_history := [], es := ChessEvaluator.init,
    clockIdx := 0, start_time := 0 }

theorem C5_terminal_dampening_key_witness :
    ¬((0 : ℚ) - 0 > 10) ∧
      (ChessEngine.alpha_beta ⟨3, 10⟩ gid clock0 0 Score.negInf Score.posInf true sC5w).1 =
        Except.ok
          ((if ChessEngine.hMem sC5w.position_history sC5w.cur.fingerprint &&
                Score.absGT500 (ChessEvaluator.evaluate sC5w.es sC5w.cur).1
            then Score.mul08 (ChessEvaluator.evaluate sC5w.es sC5w.cur).1
            else (ChessEvaluator.evaluate sC5w.es sC5w.cur).1), none) :=
  ⟨by norm_num,
   C5_terminal_dampening_key ⟨3, 10⟩ gid clock0 0 Score.negInf Score.posInf true sC5w
     (by norm_num [sC5w, clock0]) (Or.inl rfl)⟩

def sC5 : SearchSt :=
  { stack := [], cur := bKP, position_history := [(5, 0)], es := ChessEvaluator.init,
    clockIdx := 0, start_time := 0 }

/-- C5 counterexample: the fingerprint of `bKP` is a key of occurrence count
ZERO in position_history, the raw evaluation is 2550.6, and the terminal
alpha_beta call still returns the dampened 0.8 * 2550.6 = 2040.48, where the
claim requires the raw value for a fingerprint of non-zero count only. -/
theorem C5_cex :
    ChessEngine.hGet sC5.position_history bKP.fingerprint = 0 ∧
      (ChessEvaluator.evaluate sC5.es sC5.cur).1 = Score.val (12753/5) ∧
      (ChessEngine.alpha_beta ⟨3, 10⟩ gid clock0 0 Score.negInf Score.posInf true sC5).1 =
        Except.ok (Score.val (51012/25), none) ∧
      (51012/25 : ℚ) ≠ 12753/5 := by
  have hf : bKP.fingerprint = 5 := rfl
  refine ⟨by norm_num [sC5, ChessEngine.hGet, hf], by simp [sC5, evaluate_bKP], ?_, by norm_num⟩
  unfold ChessEngine.alpha_beta
  norm_num +decide [ChessEngine.is_time_up, ChessEngine.terminalEval, sC5, clock0,
    evaluate_bKP, ChessEngine.hMem, Score.absGT500, Score.mul08, hf]
  rw [abs_of_pos] <;> norm_num

/-- C3 (amended): at the end of any get_best_move invocation every
fingerprint's occurrence count in PositionHistory is zero: the dictionary is
reset on entry and the search never performs a net increment — with legal
moves present the ordering step raises before the loop's first increment,
and with none the loop body never runs.  Counts therefore equal their
pre-invocation values exactly when those were already zero (the normal
case), not in general. -/
theorem C3_history_zero_after_invocation (cfg : EngineCfg) (g : Game) (clock : Nat → ℚ)
    (b : Board) (hist : List (Nat × Int)) (es : ChessEvaluator.EvalSt) (idx : Nat) :
    (ChessEngine.get_best_move cfg g clock b hist es idx).2.position_history = [] := by
  unfold ChessEngine.get_best_move ChessEngine.iterative_deepening
  dsimp only
  split <;> simp_all [idLoop_hist]

set_option maxRecDepth 2000 in
set_option maxHeartbeats 1600000 in
/-- C3 counterexample: a get_best_move invocation started from a pre-state
whose PositionHistory holds fingerprint 7 with occurrence count 3 completes
normally (stalemate position: no legal moves, no cancellation) and ends with
that count at 0 rather than at its pre-invocation value 3. -/
theorem C3_cex :
    ChessEngine.hGet [(7, 3)] 7 = 3 ∧
      (ChessEngine.get_best_move ⟨2, 10⟩ gid clock0 bStale [(7, 3)] ChessEvaluator.init 0).1 =
        Except.ok none ∧
      ChessEngine.hGet
        (ChessEngine.get_best_move ⟨2, 10⟩ gid clock0 bStale [(7, 3)]
            ChessEvaluator.init 0).2.position_history 7 = 0 ∧
      (3 : Int) ≠ 0 := by
  have hgo : bStale.is_game_over = true := rfl
  refine ⟨by norm_num [ChessEngine.hGet], ?_, ?_, by norm_num⟩
  · have hab1 : ChessEngine.alpha_beta ⟨2, 10⟩ gid clock0 1 Score.negInf Score.posInf true
        ⟨[], bStale, [], ChessEvaluator.init, 2, 0⟩ =
        (Except.ok (Score.val 0, none), ⟨[], bStale, [], ChessEvaluator.init, 3, 0⟩) := by
      rw [ChessEngine.alpha_beta]
      norm_num [ChessEngine.is_time_up, clock0, ChessEngine.terminalEval, evaluate_bStale,
        ChessEngine.hMem, Score.absGT500, hgo]
    have hab2 : ChessEngine.alpha_beta ⟨2, 10⟩ gid clock0 2 Score.negInf Score.posInf true
        ⟨[], bStale, [], ChessEvaluator.init, 4, 0⟩ =
        (Except.ok (Score.val 0, none), ⟨[], bStale, [], ChessEvaluator.init, 5, 0⟩) := by
      rw [ChessEngine.alpha_beta]
      norm_num [ChessEngine.is_time_up, clock0, ChessEngine.terminalEval, evaluate_bStale,
        ChessEngine.hMem, Score.absGT500, hgo]
    unfold ChessEngine.get_best_move ChessEngine.iterative_deepening
    dsimp only
    rw [ChessEngine.idLoop]
    norm_num [ChessEngine.is_time_up, clock0, hab1]
    rw [ChessEngine.idLoop]
    norm_num [ChessEngine.is_time_up, clock0, hab2, show Int.toNat 2 = 2 from rfl]
    rw [ChessEngine.idLoop]
    norm_num
  · unfold ChessEngine.get_best_move ChessEngine.iterative_deepening
    dsimp only
    split <;> simp_all [idLoop_hist, ChessEngine.hGet]


def sC7 : SearchSt :=
  { stack := [], cur := bKP, position_history := [], es := ChessEvaluator.init,
    clockIdx := 0, start_time := 0 }

/-- C7: order_moves on a position with a legal move exits through the
AttributeError of the defense step with the candidate move still applied:
the board stack gained a frame and the current position is the pushed child,
so the Position is not restored to its entry state on this error exit. -/
theorem C7_board_not_restored :
    sC7.stack = [] ∧ sC7.cur = bKP ∧
      (ChessEngine.order_moves gKP sC7 [mvA3]).1 = Except.error Exc.attr ∧
      (ChessEngine.order_moves gKP sC7 [mvA3]).2.stack = [(bKP, mvA3)] ∧
      (ChessEngine.order_moves gKP sC7 [mvA3]).2.cur = bKPa3 := by
  refine ⟨rfl, rfl, ?_, ?_, ?_⟩ <;>
    norm_num +decide [ChessEngine.order_moves, ChessEngine.orderLoop, ChessEngine.scoreMove,
      ChessEngine.checkBlock, ChessEngine.checkReplyLoop, ChessEngine.pushB, ChessEngine.popB,
      ChessEngine.hMem, sC7, gKP, mvA3, bKP, bKPa3, bKPpieces, bKPa3pieces, lookupPiece,
      wK, wP, bK]

/-- C8 (amended): a non-positive depth ceiling, or a strictly negative time
budget under a monotone clock, makes get_best_move immediately yield no
move; with a budget of exactly zero the deadline test passes only once the
clock has advanced beyond the recorded start, and an unadvanced clock lets
the search begin. -/
theorem C8_nonpositive_config_none (cfg : EngineCfg) (g : Game) (clock : Nat → ℚ)
    (b : Board) (hist : List (Nat × Int)) (es : ChessEvaluator.EvalSt) (idx : Nat)
    (hmono : Monotone clock) (h : cfg.depth ≤ 0 ∨ cfg.time_limit < 0) :
    (ChessEngine.get_best_move cfg g clock b hist es idx).1 = Except.ok none := by
  unfold ChessEngine.get_best_move ChessEngine.iterative_deepening
  dsimp only
  rw [ChessEngine.idLoop]
  rcases h with h | h
  · rw [dif_neg (show ¬((1 : Int) ≤ cfg.depth) from by omega)]
  · by_cases hc : (1 : Int) ≤ cfg.depth
    · rw [dif_pos hc]
      have hd : clock idx ≤ clock (idx + 1) := hmono (Nat.le_succ idx)
      have htu : decide (clock (idx + 1) - clock idx > cfg.time_limit) = true := by
        rw [decide_eq_true_eq]
        linarith
      simp [ChessEngine.is_time_up, htu]
    · rw [dif_neg hc]

theorem C8_nonpositive_config_none_witness :
    ((⟨0, 5⟩ : EngineCfg).depth ≤ 0 ∨ (⟨0, 5⟩ : EngineCfg).time_limit < 0) ∧
      (ChessEngine.get_best_move ⟨0, 5⟩ gid clock0 bKP [] ChessEvaluator.init 0).1 =
        Except.ok none :=
  ⟨Or.inl (by norm_num),
   C8_nonpositive_config_none ⟨0, 5⟩ gid clock0 bKP [] ChessEvaluator.init 0
     (fun _ _ _ => le_refl (0 : ℚ)) (Or.inl (by norm_num))⟩

/-- C8 counterexample: depth 1 with a time budget of exactly 0 and a clock
that has not advanced: the deadline test 0 - 0 > 0 fails, so get_best_move
does not immediately yield no move — it starts the depth-1 search, which
raises the move-ordering AttributeError instead. -/
theorem C8_cex :
    (ChessEngine.get_best_move ⟨1, 0⟩ gKP clock0 bKP [] ChessEvaluator.init 0).1 =
        Except.error Exc.attr ∧
      (Except.error Exc.attr : Except Exc (Option Move)) ≠ Except.ok none := by
  refine ⟨?_, by simp⟩
  norm_num +decide [ChessEngine.get_best_move, ChessEngine.iterative_deepening,
    ChessEngine.idLoop, ChessEngine.alpha_beta, ChessEngine.is_time_up, ChessEngine.order_moves,
    ChessEngine.orderLoop, ChessEngine.scoreMove, ChessEngine.checkBlock,
    ChessEngine.checkReplyLoop, ChessEngine.pushB, ChessEngine.popB, ChessEngine.hMem,
    Board.legal_moves, clock0, gKP, bKP, bKPa3, mvA3, lookupPiece, bKPpieces, bKPa3pieces,
    wK, wP, bK]

/-- C1: on the initial game-starting position with depth ceiling 3 and a
generous time budget, get_best_move does not return a move: scoring the very
first candidate move of the depth-1 iteration raises the AttributeError of
the misnamed defense attribute, which escapes get_best_move as a
user-visible error. -/
theorem C1_initial_position_raises :
    (ChessEngine.get_best_move ⟨3, 1000⟩ g1 clock0 bInit [] ChessEvaluator.init 0).1 =
      Except.error Exc.attr := by
  norm_num +decide [ChessEngine.get_best_move, ChessEngine.iterative_deepening,
    ChessEngine.idLoop, ChessEngine.alpha_beta, ChessEngine.is_time_up, ChessEngine.order_moves,
    ChessEngine.orderLoop, ChessEngine.scoreMove, ChessEngine.checkBlock,
    ChessEngine.checkReplyLoop, ChessEngine.pushB, ChessEngine.popB, ChessEngine.hMem,
    Board.legal_moves, clock0, g1, bInit, bInitA3, bInitMovesW, bInitMovesB, mvA3,
    lookupPiece, bInitPieces, bInitA3Pieces, wK, wQ, wR, wB, wN, wP, bK, bQ, bR, bB, bN, bP]

def sC6 : SearchSt :=
  { stack := [(b6Base, mv6)], cur := b6After, position_history := [],
    es := ChessEvaluator.init, clockIdx := 0, start_time := 0 }

/-- C6: on the b6-b7+ check of the fixture, the check component of the
ordering score is exactly +30: the post-move evaluation the code consults is
the opponent-perspective -4692.4, so the +50 is withheld even though the
mover-perspective evaluation is +4692.4 > 500, and the -100 is never
subtracted even though the reply Kxb7 captures the checking pawn, because
the capture test runs on the board with the reply already pushed. -/
theorem C6_check_component :
    (ChessEngine.checkBlock g6 (some wP) 0 sC6).1 = 30 ∧
      b6After.is_check = true ∧ b6After.is_checkmate = false ∧
      (⟨56, 49, none⟩ : Move) ∈ b6After.legal_moves ∧
      (⟨56, 49, none⟩ : Move).to_square = mv6.to_square ∧
      b6After.piece_at mv6.to_square = some wP ∧
      (ChessEvaluator.evaluate ChessEvaluator.init b6After).1 = Score.val (-(23462/5)) ∧
      (30 : ℚ) ≠ -20 := by
  have hck : b6After.is_checkmate = false := rfl
  have hch : b6After.is_check = true := rfl
  have hfp : b6After.fingerprint = 21 := rfl
  have hlm : b6After.legal_moves =
      [⟨56, 48, none⟩, ⟨56, 57, none⟩, ⟨56, 49, none⟩] := rfl
  refine ⟨?_, rfl, rfl, by norm_num [hlm], rfl, rfl, by simp [evaluate_b6After], by norm_num⟩
  unfold ChessEngine.checkBlock
  norm_num +decide [sC6, hck, hch, hfp, hlm, evaluate_b6After, Score.gtB, Score.ltB,
    ChessEngine.checkReplyLoop, ChessEngine.pushB, ChessEngine.popB, g6, mv6,
    b6r1, b6r2, b6r3, b6r1Pieces, b6r2Pieces, b6r3Pieces, lookupPiece, wP, wK, bK]
